import Mathlib

/-!
Verification development for the snapshot-set orchestration engine
(`src/module_utils/snapshot_lsr/lvm.py`).

The volume-manager world is embedded as a structured inventory (`World`):
volume groups, logical volumes with their `lv_attr` strings and sizes, and
current mounts.  The external `module.run_command` calls of the source are
interpreted against this inventory: a query for an absent object behaves as
the reserved "not found" exit code 5, a query for a present object returns
its well-formed single-record report, and mutating commands (lvcreate,
lvremove, lvconvert --merge, lvextend, mount, umount) deterministically
succeed, update the inventory and append an event to an event log.  Python
dynamic-typing failures (subscripting a bool, missing dict keys, index out
of range) are modelled with `Except PErr`.

Two source modules referenced by `lvm.py` are not under `src/`:
`consts.py` (the `SnapshotStatus` code enumeration) and `lvm_utils.py`
(`percentof`, `round_up`, `mount`, `umount`, `to_bool`).  Those are
modelled from the spec where they are needed; each such definition carries
a doc comment starting with "Modelled from the spec:".
-/

namespace SnapshotLSR

/-- Python runtime failures that the translated code can raise. -/
inductive PErr where
  | typeError
  | keyError
  | indexError
  | osError
  | lvmBug (msg : String)
deriving DecidableEq

/-- A dynamically-typed value as returned by `lvm_get_attr`: either the
Python literal `False` (the not-found case) or an `lv_attr` string
(modelled as a list of characters so that subscripting is explicit). -/
inductive PyVal where
  | vbool (b : Bool)
  | vstr (s : List Char)
deriving DecidableEq

/-- One logical volume of the volume-manager inventory. -/
structure LVrec where
  vg : String
  name : String
  attr : List Char
  size : Nat
deriving DecidableEq

/-- One volume group of the volume-manager inventory. -/
structure VGrec where
  name : String
  size : Nat
  free : Nat
  extent_size : Nat
deriving DecidableEq

/-- The external state the engine acts on: the volume-manager inventory,
the mount table (SOURCE block device, TARGET mount point) and the log of
mutating commands actually executed (newest first). -/
structure World where
  vgs : List VGrec
  lvs : List LVrec
  mounts : List (String × String)
  events : List (List String)
deriving DecidableEq

def findVG (w : World) (vg_name : String) : Option VGrec :=
  w.vgs.find? (fun r => r.name == vg_name)

def findLV (w : World) (vg_name lv_name : String) : Option LVrec :=
  w.lvs.find? (fun r => r.vg == vg_name && r.name == lv_name)

def eventCount (w : World) : Nat := w.events.length

/-! Constants from `lvm.py`. -/

def LVM_NOTFOUND_RC : Nat := 5
def MAX_LVM_NAME : Nat := 127
def CHUNK_SIZE : Nat := 65536
def LVM_MIN_SNAPSHOT_SIZE : Nat := 512 * 1024 ^ 2

/-! Status codes.

Modelled from the spec: `consts.SnapshotStatus` is not under `src/`; the
spec describes it as "a closed enumeration of outcome kinds (success plus
~30 distinct failure kinds)".  The codes below are distinct naturals.
`SNAPSHOT_OK = 0` is forced by the source itself: `lvm_is_thinpool` and
`lvm_is_snapshot` run `if rc:` on a status and must not take that branch
on success, so the success status has to be Python-falsy.  No status code
equals the reserved volume-manager exit code `LVM_NOTFOUND_RC = 5`, which
the spec reserves for the external tool interface, not for statuses. -/

def SNAPSHOT_OK : Nat := 0
def ERROR_LVS_FAILED : Nat := 2
def ERROR_JSON_PARSER_ERROR : Nat := 3
def ERROR_ALREADY_EXISTS : Nat := 4
def ERROR_NAME_CONFLICT : Nat := 6
def ERROR_REMOVE_FAILED_NOT_SNAPSHOT : Nat := 9
def ERROR_REMOVE_FAILED_INUSE : Nat := 10
def ERROR_REVERT_FAILED : Nat := 11
def ERROR_LV_NOTFOUND : Nat := 12
def ERROR_VERIFY_COMMAND_FAILED : Nat := 14
def ERROR_VERIFY_NOTSNAPSHOT : Nat := 15
def ERROR_VERIFY_REMOVE_FAILED : Nat := 16
def ERROR_EXTEND_NOT_SNAPSHOT : Nat := 18
def ERROR_EXTEND_NOT_FOUND : Nat := 19
def ERROR_EXTEND_VERIFY_FAILED : Nat := 21
def ERROR_SNAPSET_INSUFFICIENT_SPACE : Nat := 23
def ERROR_SNAPSET_CHECK_STATUS_FAILED : Nat := 24
def ERROR_SNAPSET_SOURCE_DOES_NOT_EXIST : Nat := 25
def ERROR_NAME_TOO_LONG : Nat := 26
def ERROR_MOUNT_INVALID_PARAMS : Nat := 27
def ERROR_MOUNT_NOT_BLOCKDEV : Nat := 28
def ERROR_MOUNT_VERIFY_FAILED : Nat := 29
def ERROR_MOUNT_POINT_ALREADY_MOUNTED : Nat := 30
def ERROR_UMOUNT_NOT_MOUNTED : Nat := 31

/-! Space accounting math (`get_snapshot_size_required` and its helpers). -/

/-- Modelled from the spec: `lvm_utils.percentof` composed with the
`math.ceil` applied at its only call site in `get_snapshot_size_required`
(spec section 4.2 step 1: raw = ceiling(sourceSize * requiredPercent / 100)),
computed exactly over naturals. -/
def percentof_ceil (required_percent amount : Nat) : Nat :=
  (required_percent * amount + 99) / 100

/-- Modelled from the spec: `lvm_utils.round_up` (spec section 4.2 step 2:
rounded = roundUpToMultiple(raw, extentSize)).  The spec only uses it with
a positive extent size; a zero multiple is passed through unchanged. -/
def round_up (value multiple : Nat) : Nat :=
  if multiple = 0 then value else (value + multiple - 1) / multiple * multiple

/-- `get_snapshot_size_required` from `lvm.py` lines 47-53. -/
def get_snapshot_size_required (lv_size required_percent extent_size : Nat) : Nat :=
  let required := round_up (percentof_ceil required_percent lv_size) extent_size
  if required < LVM_MIN_SNAPSHOT_SIZE then LVM_MIN_SNAPSHOT_SIZE else required

/-! Naming (`get_snapshot_name`, `check_name_for_snapshot`). -/

/-- `get_snapshot_name` from `lvm.py` lines 169-175: a falsy suffix is
replaced by the empty string, then concatenated after an underscore. -/
def get_snapshot_name (lv_name suffix : String) : String :=
  lv_name ++ "_" ++ suffix

/-- `check_name_for_snapshot` from `lvm.py` lines 598-610. -/
def check_name_for_snapshot (lv_name suffix : String) : Nat × String :=
  if lv_name.length + suffix.length > MAX_LVM_NAME then
    (ERROR_NAME_TOO_LONG,
      "resulting snapshot name would exceed LVM maximum: " ++ lv_name ++ suffix)
  else
    (SNAPSHOT_OK, "")

/-! Inventory probes.  `module.run_command` on a read-only `lvs` query is
interpreted against the `World` inventory: exit code 5 for an absent
object, a well-formed single-record JSON report for a present one. -/

/-- `lvm_lv_exists` from `lvm.py` lines 226-247.  An empty name is
Python-falsy and short-circuits exactly as in the source. -/
def lvm_lv_exists (w : World) (vg_name lv_name : String) : Nat × Bool × Bool :=
  if vg_name = "" then (SNAPSHOT_OK, false, false)
  else if lv_name = "" then (SNAPSHOT_OK, (findVG w vg_name).isSome, false)
  else (SNAPSHOT_OK, (findVG w vg_name).isSome, (findLV w vg_name lv_name).isSome)

/-- `lvm_get_attr` from `lvm.py` lines 178-208.  On exit code 5 the source
returns the tuple `(SNAPSHOT_OK, False)` with a Python `bool` in the
attribute slot; on success it returns the `lv_attr` string.  A zero-length
attribute raises `LvmBug`. -/
def lvm_get_attr (w : World) (vg_name lv_name : String) : Except PErr (Nat × PyVal) :=
  match findLV w vg_name lv_name with
  | none => .ok (SNAPSHOT_OK, .vbool false)
  | some lv =>
    if lv.attr.length = 0 then .error (.lvmBug "lvs zero length attr")
    else .ok (SNAPSHOT_OK, .vstr lv.attr)

/-- `lvm_is_snapshot` from `lvm.py` lines 299-311.  The source compares the
status returned by `lvm_get_attr` against the raw exit code
`LVM_NOTFOUND_RC` and then subscripts the attribute value with `[0]`;
when the value is the Python `False` from the not-found case, that
subscript raises `TypeError`. -/
def lvm_is_snapshot (w : World) (vg_name lv_name : String) : Except PErr (Nat × Bool) :=
  match lvm_get_attr w vg_name lv_name with
  | .error e => .error e
  | .ok (rc, lv_attr) =>
    if rc = LVM_NOTFOUND_RC then .ok (SNAPSHOT_OK, false)
    else if rc ≠ SNAPSHOT_OK then .ok (ERROR_LVS_FAILED, false)
    else
      match lv_attr with
      | .vbool _ => .error .typeError
      | .vstr [] => .error .indexError
      | .vstr (c :: _) => .ok (SNAPSHOT_OK, c == 's')

/-- `lvm_is_thinpool` from `lvm.py` lines 211-223; same shape as
`lvm_is_snapshot` with the thin-pool attribute character. -/
def lvm_is_thinpool (w : World) (vg_name lv_name : String) : Except PErr (Nat × Bool) :=
  match lvm_get_attr w vg_name lv_name with
  | .error e => .error e
  | .ok (rc, lv_attr) =>
    if rc = LVM_NOTFOUND_RC then .ok (SNAPSHOT_OK, false)
    else if rc ≠ SNAPSHOT_OK then .ok (ERROR_LVS_FAILED, false)
    else
      match lv_attr with
      | .vbool _ => .error .typeError
      | .vstr [] => .error .indexError
      | .vstr (c :: _) => .ok (SNAPSHOT_OK, c == 't')

/-- `lvm_is_inuse` from `lvm.py` lines 262-296: inlines the `lvs` query
(exit code 5 is handled here and yields `(SNAPSHOT_OK, False)` directly),
raises `LvmBug` on a zero-length attribute and subscripts `lv_attr[5]`
(an out-of-range subscript raises `IndexError`). -/
def lvm_is_inuse (w : World) (vg_name lv_name : String) : Except PErr (Nat × Bool) :=
  match findLV w vg_name lv_name with
  | none => .ok (SNAPSHOT_OK, false)
  | some lv =>
    if lv.attr.length = 0 then .error (.lvmBug "lvs zero length attr")
    else
      match lv.attr.get? 5 with
      | none => .error .indexError
      | some c => .ok (SNAPSHOT_OK, c == 'o')

/-! Mutating volume-manager commands.  Each deterministic execution
updates the inventory and appends the command to the event log. -/

def run_lvcreate (w : World) (vg_name lv_name snapshot_name : String) (snap_size : Nat) :
    World :=
  { w with
    lvs := w.lvs ++ [{ vg := vg_name, name := snapshot_name,
                       attr := "swi-a-s---".toList, size := snap_size }],
    events := ["lvcreate", "-s", "-n", snapshot_name, "-L", toString snap_size ++ "B",
               vg_name ++ "/" ++ lv_name] :: w.events }

def run_lvremove (w : World) (vg_name snapshot_name : String) : World :=
  { w with
    lvs := w.lvs.filter (fun r => !(r.vg == vg_name && r.name == snapshot_name)),
    events := ["lvremove", "-y", vg_name ++ "/" ++ snapshot_name] :: w.events }

def run_lvconvert_merge (w : World) (vg_name snapshot_name : String) : World :=
  { w with
    lvs := w.lvs.filter (fun r => !(r.vg == vg_name && r.name == snapshot_name)),
    events := ["lvconvert", "--merge", vg_name ++ "/" ++ snapshot_name] :: w.events }

def run_lvextend (w : World) (vg_name snapshot_name : String) (required_size : Nat) :
    World :=
  { w with
    lvs := w.lvs.map (fun r =>
      if r.vg == vg_name && r.name == snapshot_name then { r with size := required_size }
      else r),
    events := ["lvextend", "-L", toString required_size ++ "B",
               vg_name ++ "/" ++ snapshot_name] :: w.events }

/-- `lvm_snapshot_remove` from `lvm.py` lines 314-336. -/
def lvm_snapshot_remove (w : World) (vg_name snapshot_name : String) (check_mode : Bool) :
    Except PErr ((Nat × String) × World) :=
  match lvm_is_snapshot w vg_name snapshot_name with
  | .error e => .error e
  | .ok (rc, is_snap) =>
    if rc ≠ SNAPSHOT_OK then .error (.lvmBug "lvs failed")
    else if !is_snap then
      .ok ((ERROR_REMOVE_FAILED_NOT_SNAPSHOT, snapshot_name ++ " is not a snapshot"), w)
    else if check_mode then
      .ok ((rc, "Would run command lvremove -y " ++ vg_name ++ "/" ++ snapshot_name), w)
    else
      .ok ((SNAPSHOT_OK, ""), run_lvremove w vg_name snapshot_name)

/-- `revert_lv` from `lvm.py` lines 339-372. -/
def revert_lv (w : World) (vg_name snapshot_name : String) (check_mode : Bool) :
    Except PErr ((Nat × String) × World) :=
  let r0 := lvm_lv_exists w vg_name snapshot_name
  if r0.1 ≠ SNAPSHOT_OK then .error (.lvmBug "lvs failed")
  else if r0.2.2 then
    match lvm_is_snapshot w vg_name snapshot_name with
    | .error e => .error e
    | .ok (rc, is_snap) =>
      if rc ≠ SNAPSHOT_OK then
        .ok ((ERROR_VERIFY_COMMAND_FAILED,
              "revert_lv: command failed for LV lvm_is_snapshot()"), w)
      else if !is_snap then
        .ok ((ERROR_REVERT_FAILED,
              "LV with name: " ++ vg_name ++ "/" ++ snapshot_name ++ " is not a snapshot"), w)
      else if check_mode then
        .ok ((rc, "Would run command lvconvert --merge " ++ vg_name ++ "/" ++ snapshot_name), w)
      else
        .ok ((SNAPSHOT_OK, ""), run_lvconvert_merge w vg_name snapshot_name)
  else
    .ok ((ERROR_LV_NOTFOUND,
          "snapshot not found with name: " ++ vg_name ++ "/" ++ snapshot_name), w)

/-- `snapshot_lv` from `lvm.py` lines 526-567.  When the derived name
already exists the result is `ERROR_ALREADY_EXISTS` for a snapshot and
`ERROR_NAME_CONFLICT` for an ordinary volume; in check mode the `rc` of
the preceding `lvm_lv_exists` (always `SNAPSHOT_OK`) is returned. -/
def snapshot_lv (w : World) (vg_name lv_name suffix : String) (snap_size : Nat)
    (check_mode : Bool) : Except PErr ((Nat × String) × World) :=
  let snapshot_name := get_snapshot_name lv_name suffix
  let r0 := lvm_lv_exists w vg_name snapshot_name
  if r0.2.2 then
    match lvm_is_snapshot w vg_name snapshot_name with
    | .error e => .error e
    | .ok (rc, is_snap) =>
      if rc ≠ SNAPSHOT_OK then
        .ok ((ERROR_VERIFY_COMMAND_FAILED,
              "snapshot_lv: command failed for LV lvm_is_snapshot()"), w)
      else if is_snap then
        .ok ((ERROR_ALREADY_EXISTS,
              "Snapshot of :" ++ vg_name ++ "/" ++ lv_name ++ " already exists"), w)
      else
        .ok ((ERROR_NAME_CONFLICT,
              "LV with name :" ++ snapshot_name ++ " already exits"), w)
  else if check_mode then
    .ok ((r0.1, "Would run command lvcreate -s -n " ++ snapshot_name ++ " -L "
          ++ toString snap_size ++ "B " ++ vg_name ++ "/" ++ lv_name), w)
  else
    .ok ((SNAPSHOT_OK, ""), run_lvcreate w vg_name lv_name snapshot_name snap_size)

/-! Space state (`LVSpaceState`, `VGSpaceState`, `get_current_space_state`,
`get_space_needed`). -/

structure LVSpaceState where
  lv_size : Nat
  chunk_size : Nat
deriving DecidableEq

structure VGSpaceState where
  vg_extent_size : Nat
  vg_size : Nat
  vg_free : Nat
deriving DecidableEq

/-- The dictionary built by `get_current_space_state`.  In the source,
`VGSpaceState.lvs = dict()` is a Python class attribute, so every
`VGSpaceState` instance shares ONE logical-volume dictionary: an LV name
occurring in several volume groups is overwritten by the group processed
last.  The model therefore keeps the per-group capacity records in `vgs`
and the single shared name-keyed LV dictionary in `lvs_shared`. -/
structure SpaceState where
  vgs : List (String × VGSpaceState)
  lvs_shared : List (String × LVSpaceState)
deriving DecidableEq

/-- Python dict assignment: replace in place when the key is present,
append otherwise. -/
def dictSet {α : Type} (d : List (String × α)) (k : String) (v : α) : List (String × α) :=
  if d.any (fun p => p.1 == k) then d.map (fun p => if p.1 == k then (k, v) else p)
  else d ++ [(k, v)]

/-- Python dict subscript; `none` corresponds to `KeyError`. -/
def dictGet {α : Type} (d : List (String × α)) (k : String) : Option α :=
  (d.find? (fun p => p.1 == k)).map (fun p => p.2)

/-- `get_current_space_state` from `lvm.py` lines 1176-1213, iterating over
every volume group of the inventory (via `vgs_lvs_iterator` with no
filters) and each group's member logical volumes. -/
def get_current_space_state (w : World) : Nat × String × SpaceState :=
  let st := w.vgs.foldl
    (fun (st : SpaceState) (vg : VGrec) =>
      let vgItem : VGSpaceState :=
        { vg_extent_size := vg.extent_size, vg_size := vg.size, vg_free := vg.free }
      let st := { st with vgs := dictSet st.vgs vg.name vgItem }
      (w.lvs.filter (fun r => r.vg == vg.name)).foldl
        (fun (st : SpaceState) (lv : LVrec) =>
          let lvItem : LVSpaceState := { lv_size := lv.size, chunk_size := CHUNK_SIZE }
          { st with lvs_shared := dictSet st.lvs_shared lv.name lvItem }) st)
    { vgs := [], lvs_shared := [] }
  (SNAPSHOT_OK, "", st)

/-- `get_space_needed` from `lvm.py` lines 1323-1327: looks up the LV size
(through the shared dictionary) and the group's extent size, then applies
`get_snapshot_size_required`. -/
def get_space_needed (vg_name lv_name : String) (percent_space_required : Nat)
    (sd : SpaceState) : Except PErr Nat :=
  match dictGet sd.vgs vg_name with
  | none => .error .keyError
  | some vgstate =>
    match dictGet sd.lvs_shared lv_name with
    | none => .error .keyError
    | some lvstate =>
      .ok (get_snapshot_size_required lvstate.lv_size percent_space_required
            vgstate.vg_extent_size)

/-! Snapshot sets. -/

/-- One member of a snapshot set, as assembled by the (out-of-scope) input
layer.  The mount-specific fields are Python-`None`-able values. -/
structure VolSpec where
  vg : String
  lv : String
  percent_space_required : Nat
  mountpoint : Option String := none
  mountpoint_create : Option Bool := none
  mount_origin : Option Bool := none
  all_targets : Option Bool := none
  fstype : Option String := none
  options : Option String := none
deriving DecidableEq

structure Snapset where
  name : String
  volumes : List VolSpec
deriving DecidableEq

/-! Verification functions. -/

/-- `verify_source_lvs_exist` from `lvm.py` lines 1216-1237 (the singular
form: empty names are Python-falsy and skip their check). -/
def verify_source_lvs_exist (w : World) (vg_name lv_name : String) : Nat × String :=
  let r0 := lvm_lv_exists w vg_name lv_name
  if r0.1 ≠ SNAPSHOT_OK then
    (ERROR_SNAPSET_CHECK_STATUS_FAILED,
     "command failed for LV verify_source_lvs_exist() failed to get status")
  else if vg_name ≠ "" && !r0.2.1 then
    (ERROR_SNAPSET_SOURCE_DOES_NOT_EXIST,
     "source volume group does not exist: " ++ vg_name)
  else if lv_name ≠ "" && !r0.2.2 then
    (ERROR_SNAPSET_SOURCE_DOES_NOT_EXIST,
     "source logical volume does not exist: " ++ vg_name ++ "/" ++ lv_name)
  else (SNAPSHOT_OK, "")

/-- Loop body of `verify_snapset_source_lvs_exist` (`lvm.py` lines
1277-1304): every member's source group and volume must exist. -/
def verify_snapset_source_loop (w : World) : List VolSpec → Nat × String
  | [] => (SNAPSHOT_OK, "")
  | v :: rest =>
    let r0 := lvm_lv_exists w v.vg v.lv
    if r0.1 ≠ SNAPSHOT_OK then
      (ERROR_SNAPSET_CHECK_STATUS_FAILED,
       "command failed for LV lvm_is_snapshot() failed to get status")
    else if !r0.2.1 then
      (ERROR_SNAPSET_SOURCE_DOES_NOT_EXIST,
       "source volume group does not exist: " ++ v.vg)
    else if !r0.2.2 then
      (ERROR_SNAPSET_SOURCE_DOES_NOT_EXIST,
       "source logical volume does not exist: " ++ v.vg ++ "/" ++ v.lv)
    else verify_snapset_source_loop w rest

def verify_snapset_source_lvs_exist (w : World) (ss : Snapset) : Nat × String :=
  verify_snapset_source_loop w ss.volumes

/-- Loop body of `verify_snapset_target_no_existing` (`lvm.py` lines
1240-1274): stops at the first member whose derived snapshot name exists,
returning `ERROR_ALREADY_EXISTS` when that volume is a snapshot and
`ERROR_SNAPSET_CHECK_STATUS_FAILED` otherwise. -/
def verify_snapset_target_loop (w : World) (suffix : String) :
    List VolSpec → Except PErr (Nat × String)
  | [] => .ok (SNAPSHOT_OK, "")
  | v :: rest =>
    let snapshot_name := get_snapshot_name v.lv suffix
    let r0 := lvm_lv_exists w v.vg snapshot_name
    if r0.1 ≠ SNAPSHOT_OK then
      .ok (r0.1, "could not determine if snapshot exists: " ++ v.vg ++ "/" ++ snapshot_name)
    else if r0.2.2 then
      match lvm_is_snapshot w v.vg snapshot_name with
      | .error e => .error e
      | .ok (rc, is_snap) =>
        if rc = SNAPSHOT_OK && is_snap then
          .ok (ERROR_ALREADY_EXISTS,
               "snapshot already exists: " ++ v.vg ++ "/" ++ snapshot_name)
        else
          .ok (ERROR_SNAPSET_CHECK_STATUS_FAILED,
               "volume exists that matches the pattern: " ++ v.vg ++ "/" ++ snapshot_name)
    else verify_snapset_target_loop w suffix rest

def verify_snapset_target_no_existing (w : World) (ss : Snapset) : Except PErr (Nat × String) :=
  verify_snapset_target_loop w ss.name ss.volumes

/-- Loop body of `verify_snapset_names` (`lvm.py` lines 1307-1320). -/
def verify_snapset_names_loop (suffix : String) : List VolSpec → Nat × String
  | [] => (SNAPSHOT_OK, "")
  | v :: rest =>
    let r := check_name_for_snapshot v.lv suffix
    if r.1 ≠ SNAPSHOT_OK then r
    else verify_snapset_names_loop suffix rest

def verify_snapset_names (ss : Snapset) : Nat × String :=
  verify_snapset_names_loop ss.name ss.volumes

/-! Space precheck for a whole set
(`snapshot_precheck_lv_set_space`, `lvm.py` lines 1331-1364). -/

/-- First loop of `snapshot_precheck_lv_set_space`: accumulate the total
space requested per volume group of the set's members. -/
def precheck_space_totals (sd : SpaceState) :
    List VolSpec → List (String × Nat) → Except PErr (List (String × Nat))
  | [], acc => .ok acc
  | v :: rest, acc =>
    match get_space_needed v.vg v.lv v.percent_space_required sd with
    | .error e => .error e
    | .ok required_size =>
      let acc :=
        match dictGet acc v.vg with
        | some prev => dictSet acc v.vg (prev + required_size)
        | none => dictSet acc v.vg required_size
      precheck_space_totals sd rest acc

/-- Second loop of `snapshot_precheck_lv_set_space`: fail with
`ERROR_SNAPSET_INSUFFICIENT_SPACE` at the first member whose group's total
exceeds its free space. -/
def precheck_space_check (sd : SpaceState) (totals : List (String × Nat)) :
    List VolSpec → Except PErr (Nat × String × Option SpaceState)
  | [] => .ok (SNAPSHOT_OK, "", some sd)
  | v :: rest =>
    match dictGet totals v.vg with
    | none => .error .keyError
    | some total =>
      match dictGet sd.vgs v.vg with
      | none => .error .keyError
      | some vgstate =>
        if total > vgstate.vg_free then
          .ok (ERROR_SNAPSET_INSUFFICIENT_SPACE,
               "insufficient space for snapshots in: " ++ v.vg, none)
        else precheck_space_check sd totals rest

def snapshot_precheck_lv_set_space (w : World) (ss : Snapset) :
    Except PErr (Nat × String × Option SpaceState) :=
  let r0 := get_current_space_state w
  if r0.1 ≠ SNAPSHOT_OK then
    .ok (r0.1, "get_space_state failure in snapshot_precheck_lv_set_space", none)
  else
    match precheck_space_totals r0.2.2 ss.volumes [] with
    | .error e => .error e
    | .ok totals => precheck_space_check r0.2.2 totals ss.volumes

/-- Inline name-conflict loop of `snapshot_precheck_lv_set`
(`lvm.py` lines 1388-1393): re-runs `check_name_for_snapshot` per member
but replaces the message with a fixed one. -/
def precheck_names_loop (suffix : String) : List VolSpec → Nat
  | [] => SNAPSHOT_OK
  | v :: rest =>
    let r := check_name_for_snapshot v.lv suffix
    if r.1 ≠ SNAPSHOT_OK then r.1
    else precheck_names_loop suffix rest

/-- `snapshot_precheck_lv_set` from `lvm.py` lines 1369-1401. -/
def snapshot_precheck_lv_set (w : World) (ss : Snapset) :
    Except PErr (Nat × String × Option SpaceState) :=
  let r1 := verify_snapset_source_lvs_exist w ss
  if r1.1 ≠ SNAPSHOT_OK then .ok (r1.1, r1.2, none)
  else
    match verify_snapset_target_no_existing w ss with
    | .error e => .error e
    | .ok (rc2, m2) =>
      if rc2 ≠ SNAPSHOT_OK then .ok (rc2, m2, none)
      else
        let r3 := verify_snapset_names ss
        if r3.1 ≠ SNAPSHOT_OK then .ok (r3.1, r3.2, none)
        else
          let rc4 := precheck_names_loop ss.name ss.volumes
          if rc4 ≠ SNAPSHOT_OK then
            .ok (rc4, "resulting snapshot name would exceed LVM maximum", none)
          else snapshot_precheck_lv_set_space w ss

/-! Set orchestrators: create, remove, revert, extend. -/

/-- Per-volume loop of `snapshot_create_set` (`lvm.py` lines 1416-1435):
compute the required size, invoke `snapshot_lv`, and set `changed` after
each `SNAPSHOT_OK` result. -/
def snapshot_create_loop (suffix : String) (sd : SpaceState) (check_mode : Bool) :
    List VolSpec → World → Bool → Except PErr ((Nat × String × Bool) × World)
  | [], w, changed => .ok ((SNAPSHOT_OK, "", changed), w)
  | v :: rest, w, changed =>
    match get_space_needed v.vg v.lv v.percent_space_required sd with
    | .error e => .error e
    | .ok required_size =>
      match snapshot_lv w v.vg v.lv suffix required_size check_mode with
      | .error e => .error e
      | .ok ((rc, message), w') =>
        if rc ≠ SNAPSHOT_OK then .ok ((rc, message, changed), w')
        else snapshot_create_loop suffix sd check_mode rest w' true

/-- `snapshot_create_set` from `lvm.py` lines 1404-1435.  A failing
precheck returns with `changed = False`, collapsing `ERROR_ALREADY_EXISTS`
to `SNAPSHOT_OK`.  (A `SNAPSHOT_OK` precheck always carries a space
dictionary; the impossible `none` case is mapped to the `KeyError` the
Python `None` subscript would raise.) -/
def snapshot_create_set (w : World) (ss : Snapset) (check_mode : Bool) :
    Except PErr ((Nat × String × Bool) × World) :=
  match snapshot_precheck_lv_set w ss with
  | .error e => .error e
  | .ok (rc, message, sdOpt) =>
    if rc ≠ SNAPSHOT_OK then
      let rc := if rc = ERROR_ALREADY_EXISTS then SNAPSHOT_OK else rc
      .ok ((rc, message, false), w)
    else
      match sdOpt with
      | none => .error .keyError
      | some sd => snapshot_create_loop ss.name sd check_mode ss.volumes w false

/-- `snapshot_set` from `lvm.py` lines 1438-1446. -/
def snapshot_set (w : World) (ss : Snapset) (check_mode : Bool) :
    Except PErr ((Nat × String × Bool) × World) :=
  let r := verify_snapset_source_lvs_exist w ss
  if r.1 ≠ SNAPSHOT_OK then .ok ((r.1, r.2, false), w)
  else snapshot_create_set w ss check_mode

/-- First loop of `remove_snapshot_set` (`lvm.py` lines 1042-1067): the
in-use precheck across all members, run before any removal.  `some r`
models an early `return` (always with `changed = False`). -/
def remove_precheck_loop (w : World) (suffix : String) :
    List VolSpec → Except PErr (Option (Nat × String))
  | [] => .ok none
  | v :: rest =>
    let snapshot_name := get_snapshot_name v.lv suffix
    let r0 := lvm_lv_exists w v.vg snapshot_name
    if r0.1 ≠ SNAPSHOT_OK then .ok (some (r0.1, "failed to get LV status"))
    else if !r0.2.1 || !r0.2.2 then remove_precheck_loop w suffix rest
    else
      match lvm_is_inuse w v.vg snapshot_name with
      | .error e => .error e
      | .ok (rc, in_use) =>
        if rc ≠ SNAPSHOT_OK then .ok (some (rc, "failed to lvm_is_inuse status"))
        else if in_use then
          .ok (some (ERROR_REMOVE_FAILED_INUSE,
                     "volume is in use: " ++ v.vg ++ "/" ++ snapshot_name))
        else remove_precheck_loop w suffix rest

/-- Second loop of `remove_snapshot_set` (`lvm.py` lines 1069-1091):
remove each member, skipping missing targets, setting `changed` after each
successful removal. -/
def remove_loop (suffix : String) (check_mode : Bool) :
    List VolSpec → World → Bool → Except PErr ((Nat × String × Bool) × World)
  | [], w, changed => .ok ((SNAPSHOT_OK, "", changed), w)
  | v :: rest, w, changed =>
    let snapshot_name := get_snapshot_name v.lv suffix
    let r0 := lvm_lv_exists w v.vg snapshot_name
    if r0.1 ≠ SNAPSHOT_OK then .ok ((r0.1, "failed to get LV status", changed), w)
    else if !r0.2.1 || !r0.2.2 then remove_loop suffix check_mode rest w changed
    else
      match lvm_snapshot_remove w v.vg snapshot_name check_mode with
      | .error e => .error e
      | .ok ((rc, message), w') =>
        if rc ≠ SNAPSHOT_OK then .ok ((rc, message, changed), w')
        else remove_loop suffix check_mode rest w' true

/-- `remove_snapshot_set` from `lvm.py` lines 1036-1091. -/
def remove_snapshot_set (w : World) (ss : Snapset) (check_mode : Bool) :
    Except PErr ((Nat × String × Bool) × World) :=
  match remove_precheck_loop w ss.name ss.volumes with
  | .error e => .error e
  | .ok (some r) => .ok ((r.1, r.2, false), w)
  | .ok none => remove_loop ss.name check_mode ss.volumes w false

/-- Loop of `revert_snapshot_set` (`lvm.py` lines 735-751): every non-OK
`revert_lv` result returns immediately, with `ERROR_LV_NOTFOUND` coerced
to `SNAPSHOT_OK` first; `changed` is set after each successful revert. -/
def revert_loop (suffix : String) (check_mode : Bool) :
    List VolSpec → World → Bool → Except PErr ((Nat × String × Bool) × World)
  | [], w, changed => .ok ((SNAPSHOT_OK, "", changed), w)
  | v :: rest, w, changed =>
    match revert_lv w v.vg (get_snapshot_name v.lv suffix) check_mode with
    | .error e => .error e
    | .ok ((rc, message), w') =>
      if rc ≠ SNAPSHOT_OK then
        let rc := if rc = ERROR_LV_NOTFOUND then SNAPSHOT_OK else rc
        .ok ((rc, message, changed), w')
      else revert_loop suffix check_mode rest w' true

/-- `revert_snapshot_set` from `lvm.py` lines 729-751. -/
def revert_snapshot_set (w : World) (ss : Snapset) (check_mode : Bool) :
    Except PErr ((Nat × String × Bool) × World) :=
  revert_loop ss.name check_mode ss.volumes w false

/-- `extend_lv_snapshot` from `lvm.py` lines 375-431. -/
def extend_lv_snapshot (w : World) (vg_name lv_name suffix : String)
    (percent_space_required : Nat) (check_mode : Bool) :
    Except PErr ((Nat × String × Bool) × World) :=
  let snapshot_name := get_snapshot_name lv_name suffix
  let r0 := lvm_lv_exists w vg_name snapshot_name
  if r0.2.2 then
    match lvm_is_snapshot w vg_name snapshot_name with
    | .error e => .error e
    | .ok (rc, is_snap) =>
      if rc ≠ SNAPSHOT_OK then
        .ok ((ERROR_VERIFY_COMMAND_FAILED,
              "extend_lv_snapshot: command failed for LV lvm_is_snapshot()", false), w)
      else if !is_snap then
        .ok ((ERROR_EXTEND_NOT_SNAPSHOT,
              "LV with name: " ++ vg_name ++ "/" ++ snapshot_name ++ " is not a snapshot",
              false), w)
      else
        let r1 := get_current_space_state w
        if r1.1 ≠ SNAPSHOT_OK then
          .ok ((r1.1, "extend_lv get_space_state failure", false), w)
        else
          match dictGet r1.2.2.vgs vg_name with
          | none => .error .keyError
          | some _vgstate =>
            match dictGet r1.2.2.lvs_shared snapshot_name with
            | none => .error .keyError
            | some snapstate =>
              match get_space_needed vg_name lv_name percent_space_required r1.2.2 with
              | .error e => .error e
              | .ok required_size =>
                if snapstate.lv_size ≥ required_size then
                  .ok ((SNAPSHOT_OK, "", false), w)
                else if check_mode then
                  .ok ((r1.1, "Would run command lvextend -L "
                        ++ toString required_size ++ "B " ++ vg_name ++ "/" ++ snapshot_name,
                        false), w)
                else
                  .ok ((SNAPSHOT_OK, "", true),
                       run_lvextend w vg_name snapshot_name required_size)
  else
    .ok ((ERROR_EXTEND_NOT_FOUND,
          "snapshot not found with name: " ++ vg_name ++ "/" ++ snapshot_name, false), w)

/-- Loop of `extend_snapshot_set` (`lvm.py` lines 462-478). -/
def extend_set_loop (suffix : String) (check_mode : Bool) :
    List VolSpec → World → Bool → Except PErr ((Nat × String × Bool) × World)
  | [], w, changed => .ok ((SNAPSHOT_OK, "", changed), w)
  | v :: rest, w, changed =>
    match extend_lv_snapshot w v.vg v.lv suffix v.percent_space_required check_mode with
    | .error e => .error e
    | .ok ((rc, message, cmd_changed), w') =>
      let changed := changed || cmd_changed
      if rc ≠ SNAPSHOT_OK then .ok ((rc, message, changed), w')
      else extend_set_loop suffix check_mode rest w' changed

/-- `extend_snapshot_set` from `lvm.py` lines 457-478. -/
def extend_snapshot_set (w : World) (ss : Snapset) (check_mode : Bool) :
    Except PErr ((Nat × String × Bool) × World) :=
  extend_set_loop ss.name check_mode ss.volumes w false

/-- `extend_check_size` from `lvm.py` lines 434-454 (the unreachable
space-state failure keeps its message in the third slot). -/
def extend_check_size (w : World) (vg_name lv_name snapshot_name : String)
    (percent_space_required : Nat) : Except PErr (Nat × Bool × String) :=
  let r1 := get_current_space_state w
  if r1.1 ≠ SNAPSHOT_OK then
    .ok (r1.1, false, "extend_lv get_space_state failure")
  else
    match dictGet r1.2.2.vgs vg_name with
    | none => .error .keyError
    | some _vgstate =>
      match dictGet r1.2.2.lvs_shared snapshot_name with
      | none => .error .keyError
      | some snapstate =>
        match get_space_needed vg_name lv_name percent_space_required r1.2.2 with
        | .error e => .error e
        | .ok required_size =>
          if snapstate.lv_size ≥ required_size then .ok (SNAPSHOT_OK, true, "")
          else .ok (SNAPSHOT_OK, false, "current size too small")

/-- Loop of `extend_verify_snapshot_set` (`lvm.py` lines 481-523). -/
def extend_verify_loop (w : World) (suffix : String) :
    List VolSpec → Except PErr (Nat × String)
  | [] => .ok (SNAPSHOT_OK, "")
  | v :: rest =>
    let snapshot_name := get_snapshot_name v.lv suffix
    let r0 := lvm_lv_exists w v.vg snapshot_name
    if r0.1 ≠ SNAPSHOT_OK then
      .ok (r0.1, "failure to get status for: " ++ v.vg ++ "/" ++ snapshot_name)
    else if !r0.2.2 then
      .ok (ERROR_EXTEND_VERIFY_FAILED,
           "extend verify snapshot not found for source LV: " ++ v.vg ++ "/" ++ snapshot_name)
    else
      match extend_check_size w v.vg v.lv snapshot_name v.percent_space_required with
      | .error e => .error e
      | .ok (rc, size_ok, message) =>
        if rc ≠ SNAPSHOT_OK then .ok (rc, message)
        else if !size_ok then
          .ok (ERROR_EXTEND_VERIFY_FAILED,
               "verify failed due to insufficient space for: " ++ v.vg ++ "/" ++ v.lv)
        else extend_verify_loop w suffix rest

def extend_verify_snapshot_set (w : World) (ss : Snapset) : Except PErr (Nat × String) :=
  extend_verify_loop w ss.name ss.volumes

/-- Loop of `remove_verify_snapshot_set` (`lvm.py` lines 1094-1119). -/
def remove_verify_loop (w : World) (suffix : String) : List VolSpec → Nat × String
  | [] => (SNAPSHOT_OK, "")
  | v :: rest =>
    let snapshot_name := get_snapshot_name v.lv suffix
    let r0 := lvm_lv_exists w v.vg snapshot_name
    if r0.1 ≠ SNAPSHOT_OK then
      (r0.1, "volume exists that matches the pattern: " ++ v.vg ++ "/" ++ snapshot_name)
    else if r0.2.2 then
      (ERROR_VERIFY_REMOVE_FAILED,
       "volume exists that matches the pattern: " ++ v.vg ++ "/" ++ snapshot_name)
    else remove_verify_loop w suffix rest

def remove_verify_snapshot_set (w : World) (ss : Snapset) : Nat × String :=
  remove_verify_loop w ss.name ss.volumes

/-- Loop of `check_verify_lvs_set` (`lvm.py` lines 625-657). -/
def check_verify_loop (w : World) (suffix : String) :
    List VolSpec → Except PErr (Nat × String)
  | [] => .ok (SNAPSHOT_OK, "")
  | v :: rest =>
    let snapshot_name := get_snapshot_name v.lv suffix
    let r0 := lvm_lv_exists w v.vg snapshot_name
    if r0.1 ≠ SNAPSHOT_OK then
      .ok (ERROR_VERIFY_COMMAND_FAILED, "check verify: command failed for LV snapshot exists")
    else if !r0.2.2 then
      .ok (ERROR_VERIFY_COMMAND_FAILED,
           "check verify: snapshot not found for: " ++ v.vg ++ "/" ++ v.lv)
    else
      match lvm_is_snapshot w v.vg snapshot_name with
      | .error e => .error e
      | .ok (rc, is_snap) =>
        if rc ≠ SNAPSHOT_OK then
          .ok (ERROR_VERIFY_COMMAND_FAILED,
               "check verify: command failed for LV lvm_is_snapshot()")
        else if !is_snap then
          .ok (ERROR_VERIFY_NOTSNAPSHOT,
               "check verify: target logical volume exits, but it is not a snapshot")
        else check_verify_loop w suffix rest

/-- `check_verify_lvs_set` from `lvm.py` lines 614-658. -/
def check_verify_lvs_set (w : World) (ss : Snapset) : Except PErr (Nat × String) :=
  let r1 := verify_snapset_source_lvs_exist w ss
  if r1.1 ≠ SNAPSHOT_OK then .ok (r1.1, r1.2)
  else check_verify_loop w ss.name ss.volumes

/-! Mount and unmount.  `findmnt BLOCKPATH -P` is interpreted against the
mount table; the `mount`/`umount` helpers live in the absent
`lvm_utils.py` and are modelled from the spec. -/

/-- `lvm_get_fs_mount_points` from `lvm.py` lines 93-112: `findmnt`
matches the given path as source device or as mount point; a non-zero
exit (no match) makes the source return Python `None`. -/
def lvm_get_fs_mount_points (w : World) (block_path : String) :
    Option (List (String × String)) :=
  let l := w.mounts.filter (fun p => p.1 == block_path || p.2 == block_path)
  if l.isEmpty then none else some l

/-- Modelled from the spec: `lvm_utils.mount` (spec section 6, Mount
Interface): an OK / failure / already-in-desired-state tri-state; in dry
run the mutating step reports the action instead of performing it. -/
def mount_helper (w : World) (blockdev mountpoint : String) (check_mode : Bool) :
    (Nat × String) × World :=
  if w.mounts.any (fun p => p.1 == blockdev && p.2 == mountpoint) then
    ((ERROR_MOUNT_POINT_ALREADY_MOUNTED,
      "already mounted: " ++ blockdev ++ " " ++ mountpoint), w)
  else if check_mode then
    ((SNAPSHOT_OK, "Would run command mount " ++ blockdev ++ " " ++ mountpoint), w)
  else
    ((SNAPSHOT_OK, ""),
     { w with mounts := w.mounts ++ [(blockdev, mountpoint)],
              events := ["mount", blockdev, mountpoint] :: w.events })

def eraseFirstMount (mounts : List (String × String)) (target : String) :
    List (String × String) :=
  match mounts with
  | [] => []
  | p :: rest =>
    if p.1 == target || p.2 == target then rest
    else p :: eraseFirstMount rest target

/-- Modelled from the spec: `lvm_utils.umount` (spec section 6, Mount
Interface): not-mounted is the already-in-desired-state case; with
`all_targets` every matching mount is detached, otherwise one is. -/
def umount_helper (w : World) (umount_target : String) (all_targets check_mode : Bool) :
    (Nat × String) × World :=
  let matching := w.mounts.filter (fun p => p.1 == umount_target || p.2 == umount_target)
  if matching.isEmpty then
    ((ERROR_UMOUNT_NOT_MOUNTED, "not mounted: " ++ umount_target), w)
  else if check_mode then
    ((SNAPSHOT_OK, "Would run command umount " ++ umount_target), w)
  else
    let mounts :=
      if all_targets then
        w.mounts.filter (fun p => !(p.1 == umount_target || p.2 == umount_target))
      else eraseFirstMount w.mounts umount_target
    ((SNAPSHOT_OK, ""),
     { w with mounts := mounts, events := ["umount", umount_target] :: w.events })

/-- `umount_verify` from `lvm.py` lines 754-773, with the per-record scan
of the `findmnt` output split out. -/
def umount_verify_scan (blockdev mountpoint : String) :
    List (String × String) → Option (Nat × String)
  | [] => none
  | r :: rest =>
    if r.1 == blockdev then
      some (ERROR_MOUNT_VERIFY_FAILED, "device is mounted on mountpoint: " ++ blockdev)
    else if r.2 == mountpoint then
      some (ERROR_MOUNT_VERIFY_FAILED, "device is mounted on mountpoint: " ++ mountpoint)
    else umount_verify_scan blockdev mountpoint rest

def umount_verify (w : World) (mountpoint vg_name lv_to_check : String) : Nat × String :=
  let blockdev := "/dev/" ++ vg_name ++ "/" ++ lv_to_check
  match lvm_get_fs_mount_points w mountpoint with
  | none => (SNAPSHOT_OK, "")
  | some mount_list =>
    match umount_verify_scan blockdev mountpoint mount_list with
    | some r => r
    | none => (SNAPSHOT_OK, "")

/-- The tail of `umount_lv`: run the unmount helper, set `changed` from
the raw helper status, then coerce `ERROR_UMOUNT_NOT_MOUNTED` to
`SNAPSHOT_OK` (already unmounted is not an error). -/
def umount_attempt (w : World) (umount_target : String) (all_targets check_mode : Bool) :
    (Nat × String × Bool) × World :=
  ((if (umount_helper w umount_target all_targets check_mode).1.1 = ERROR_UMOUNT_NOT_MOUNTED
      then SNAPSHOT_OK else (umount_helper w umount_target all_targets check_mode).1.1,
    (umount_helper w umount_target all_targets check_mode).1.2,
    (umount_helper w umount_target all_targets check_mode).1.1 == SNAPSHOT_OK),
   (umount_helper w umount_target all_targets check_mode).2)

/-- `umount_lv` from `lvm.py` lines 776-790 (locals inlined): with a
truthy group and volume the sources are verified first, then the unmount
is attempted. -/
def umount_lv (w : World) (umount_target vg_name lv_name : String)
    (all_targets check_mode : Bool) : (Nat × String × Bool) × World :=
  if vg_name ≠ "" && lv_name ≠ "" then
    if (verify_source_lvs_exist w vg_name lv_name).1 ≠ SNAPSHOT_OK then
      (((verify_source_lvs_exist w vg_name lv_name).1,
        (verify_source_lvs_exist w vg_name lv_name).2, false), w)
    else umount_attempt w umount_target all_targets check_mode
  else umount_attempt w umount_target all_targets check_mode

/-- The per-item derivation of the volume to check in
`umount_snapshot_set`: the origin volume when `mount_origin` is set, else
the derived snapshot name when both names are truthy, else the Python
`None` (modelled as the empty string, also falsy). -/
def umount_lv_to_check (suffix : String) (v : VolSpec) : String :=
  if v.mount_origin.getD false then v.lv
  else if v.lv ≠ "" && suffix ≠ "" then get_snapshot_name v.lv suffix
  else ""

/-- The apply-mode step of one `umount_snapshot_set` iteration. -/
def umount_set_step (w : World) (suffix : String) (check_mode : Bool) (v : VolSpec)
    (mountpoint : String) : (Nat × String × Bool) × World :=
  umount_lv w mountpoint v.vg (umount_lv_to_check suffix v) (v.all_targets.getD false)
    check_mode

def umount_set_loop (w0 : World) (suffix : String) (verify_only check_mode : Bool) :
    List VolSpec → World → Bool → Except PErr ((Nat × String × Bool) × World)
  | [], w, changed => .ok ((SNAPSHOT_OK, "", changed), w)
  | v :: rest, w, changed =>
    match v.mountpoint with
    | none => .error .keyError
    | some mountpoint =>
      if verify_only then
        let r := umount_verify w mountpoint v.vg (umount_lv_to_check suffix v)
        if r.1 ≠ SNAPSHOT_OK then .ok ((r.1, r.2, changed), w)
        else umount_set_loop w0 suffix verify_only check_mode rest w changed
      else
        let r := umount_set_step w suffix check_mode v mountpoint
        let changed := changed || r.1.2.2
        if r.1.1 ≠ SNAPSHOT_OK then .ok ((r.1.1, r.1.2.1, changed), r.2)
        else umount_set_loop w0 suffix verify_only check_mode rest r.2 changed

/-- `umount_snapshot_set` from `lvm.py` lines 793-836. -/
def umount_snapshot_set (w : World) (ss : Snapset) (verify_only check_mode : Bool) :
    Except PErr ((Nat × String × Bool) × World) :=
  umount_set_loop w ss.name verify_only check_mode ss.volumes w false

/-- `mount_verify` from `lvm.py` lines 909-972.  With a non-empty group
and volume (enforced just above its `os.stat` branch) the block device is
always recomputed from them. -/
def mount_verify (w : World) (origin : Bool) (mountpoint _blockdev vg_name lv_name
    snapset_name : String) : Nat × String :=
  if mountpoint = "" then
    (ERROR_MOUNT_INVALID_PARAMS, "must provide mountpoint")
  else if vg_name = "" || lv_name = "" then
    (ERROR_MOUNT_INVALID_PARAMS, "must provide blockdev or vg/lv for mount source")
  else
    let lv_to_check := if origin then lv_name else get_snapshot_name lv_name snapset_name
    let rv := verify_source_lvs_exist w vg_name lv_to_check
    if rv.1 ≠ SNAPSHOT_OK then (rv.1, rv.2)
    else
      let blockdev := "/dev/" ++ vg_name ++ "/" ++ lv_to_check
      if blockdev = "" then
        (ERROR_MOUNT_NOT_BLOCKDEV, "blockdev or vg/lv is a required")
      else
        match lvm_get_fs_mount_points w blockdev with
        | none =>
          (ERROR_MOUNT_VERIFY_FAILED, "blockdev not mounted on any mountpoint: " ++ blockdev)
        | some mount_list =>
          if mount_list.any (fun r => r.2 == mountpoint) then (SNAPSHOT_OK, "")
          else
            (ERROR_MOUNT_VERIFY_FAILED,
             "blockdev not mounted on specified mountpoint: " ++ blockdev ++ " " ++ mountpoint)

/-- The source volume `mount_lv`/`mount_verify` act on: the origin volume
when the origin flag is set, else the derived snapshot. -/
def mount_source_lv (origin : Bool) (lv_name snapset_name : String) : String :=
  if origin then lv_name else get_snapshot_name lv_name snapset_name

/-- The tail of `mount_lv`: run the mount helper, set `changed` from the
raw helper status, then coerce `ERROR_MOUNT_POINT_ALREADY_MOUNTED` to
`SNAPSHOT_OK` (already mounted is not an error). -/
def mount_attempt (w : World) (blockdev mountpoint : String) (check_mode : Bool) :
    (Nat × String × Bool) × World :=
  ((if (mount_helper w blockdev mountpoint check_mode).1.1 = ERROR_MOUNT_POINT_ALREADY_MOUNTED
      then SNAPSHOT_OK else (mount_helper w blockdev mountpoint check_mode).1.1,
    (mount_helper w blockdev mountpoint check_mode).1.2,
    (mount_helper w blockdev mountpoint check_mode).1.1 == SNAPSHOT_OK),
   (mount_helper w blockdev mountpoint check_mode).2)

/-- `mount_lv` from `lvm.py` lines 975-1033 (locals inlined).  The
`os.stat` branch for an externally supplied block device (taken only when
group or volume is missing) is a real filesystem call and surfaces as
`osError`. -/
def mount_lv (w : World) (_create origin : Bool) (mountpoint _fstype blockdev _options
    vg_name lv_name snapset_name : String) (check_mode : Bool) :
    Except PErr ((Nat × String × Bool) × World) :=
  if blockdev = "" && (vg_name = "" || lv_name = "") then
    .ok ((ERROR_MOUNT_INVALID_PARAMS, "must provide blockdev or vg/lv for mount source",
          false), w)
  else if vg_name ≠ "" && lv_name ≠ "" then
    if (verify_source_lvs_exist w vg_name
          (mount_source_lv origin lv_name snapset_name)).1 ≠ SNAPSHOT_OK then
      .ok (((verify_source_lvs_exist w vg_name
               (mount_source_lv origin lv_name snapset_name)).1,
            (verify_source_lvs_exist w vg_name
               (mount_source_lv origin lv_name snapset_name)).2, false), w)
    else
      .ok (mount_attempt w
            ("/dev/" ++ vg_name ++ "/" ++ mount_source_lv origin lv_name snapset_name)
            mountpoint check_mode)
  else
    .error .osError

/-- The per-item mount-point-creation flag of `mount_snapshot_set`: the
command-line flag when truthy, else the member's own field (Python `None`
meaning false). -/
def mount_item_create (cmdline_mountpoint_create : Bool) (v : VolSpec) : Bool :=
  if !cmdline_mountpoint_create then v.mountpoint_create.getD false
  else cmdline_mountpoint_create

/-- The per-item derivation of the volume to mount in
`mount_snapshot_set`. -/
def mount_lv_to_check (suffix : String) (v : VolSpec) : String :=
  if v.mount_origin.getD false then v.lv else get_snapshot_name v.lv suffix

/-- The apply-mode step of one `mount_snapshot_set` iteration. -/
def mount_set_step (w : World) (suffix : String) (cmdline_mountpoint_create check_mode : Bool)
    (v : VolSpec) (mountpoint : String) : Except PErr ((Nat × String × Bool) × World) :=
  mount_lv w (mount_item_create cmdline_mountpoint_create v) (v.mount_origin.getD false)
    mountpoint (v.fstype.getD "") ("/dev/" ++ v.vg ++ "/" ++ mount_lv_to_check suffix v)
    (v.options.getD "") v.vg v.lv suffix check_mode

/-- Loop of `mount_snapshot_set` (`lvm.py` lines 848-906). -/
def mount_set_loop (w0 : World) (suffix : String)
    (verify_only cmdline_mountpoint_create check_mode : Bool) :
    List VolSpec → World → Bool → Except PErr ((Nat × String × Bool) × World)
  | [], w, changed => .ok ((SNAPSHOT_OK, "", changed), w)
  | v :: rest, w, changed =>
    match v.mountpoint with
    | none =>
      .ok ((ERROR_MOUNT_INVALID_PARAMS,
            "set item must provide a mountpoint for : " ++ v.vg ++ "/" ++ v.lv,
            changed), w)
    | some mountpoint =>
      if verify_only then
        let r := mount_verify w (v.mount_origin.getD false) mountpoint
          ("/dev/" ++ v.vg ++ "/" ++ mount_lv_to_check suffix v) v.vg v.lv suffix
        if r.1 ≠ SNAPSHOT_OK then .ok ((r.1, r.2, changed), w)
        else mount_set_loop w0 suffix verify_only cmdline_mountpoint_create check_mode
               rest w changed
      else
        match mount_set_step w suffix cmdline_mountpoint_create check_mode v mountpoint with
        | .error e => .error e
        | .ok ((rc, message, cmd_changed), w') =>
          let changed := changed || cmd_changed
          if rc ≠ SNAPSHOT_OK then .ok ((rc, message, changed), w')
          else mount_set_loop w0 suffix verify_only cmdline_mountpoint_create check_mode
                 rest w' changed

/-- `mount_snapshot_set` from `lvm.py` lines 839-906. -/
def mount_snapshot_set (w : World) (ss : Snapset)
    (verify_only cmdline_mountpoint_create check_mode : Bool) :
    Except PErr ((Nat × String × Bool) × World) :=
  mount_set_loop w ss.name verify_only cmdline_mountpoint_create check_mode
    ss.volumes w false

/-! Command wrappers (`lvm.py` lines 1473-1599). -/

/-- The module arguments consulted by the command wrappers. -/
structure ModuleArgs where
  ansible_check_mode : Bool
  snapshot_lvm_verify_only : Bool
  snapshot_lvm_mountpoint_create : Bool
deriving DecidableEq

/-- The uniform result record each command wrapper returns. -/
structure CmdResult where
  return_code : Nat
  errors : String
  changed : Bool
deriving DecidableEq

/-- `snapshot_cmd` from `lvm.py` lines 1473-1480 (the create entry point;
it has no verify-only branch). -/
def snapshot_cmd (w : World) (args : ModuleArgs) (ss : Snapset) :
    Except PErr (CmdResult × World) :=
  match snapshot_set w ss args.ansible_check_mode with
  | .error e => .error e
  | .ok ((rc, message, changed), w') =>
    .ok ({ return_code := rc, errors := message, changed := changed }, w')

/-- `check_cmd` from `lvm.py` lines 1483-1493. -/
def check_cmd (w : World) (args : ModuleArgs) (ss : Snapset) :
    Except PErr (CmdResult × World) :=
  if args.snapshot_lvm_verify_only then
    match check_verify_lvs_set w ss with
    | .error e => .error e
    | .ok (rc, message) =>
      .ok ({ return_code := rc, errors := message, changed := false }, w)
  else
    match snapshot_precheck_lv_set w ss with
    | .error e => .error e
    | .ok (rc, message, _sd) =>
      .ok ({ return_code := rc, errors := message, changed := false }, w)

/-- `remove_cmd` from `lvm.py` lines 1496-1508. -/
def remove_cmd (w : World) (args : ModuleArgs) (ss : Snapset) :
    Except PErr (CmdResult × World) :=
  if args.snapshot_lvm_verify_only then
    let r := remove_verify_snapshot_set w ss
    .ok ({ return_code := r.1, errors := r.2, changed := false }, w)
  else
    match remove_snapshot_set w ss args.ansible_check_mode with
    | .error e => .error e
    | .ok ((rc, message, changed), w') =>
      .ok ({ return_code := rc, errors := message, changed := changed }, w')

/-- `revert_cmd` from `lvm.py` lines 1511-1527 (verify-only reuses the
remove verification). -/
def revert_cmd (w : World) (args : ModuleArgs) (ss : Snapset) :
    Except PErr (CmdResult × World) :=
  if args.snapshot_lvm_verify_only then
    let r := remove_verify_snapshot_set w ss
    .ok ({ return_code := r.1, errors := r.2, changed := false }, w)
  else
    match revert_snapshot_set w ss args.ansible_check_mode with
    | .error e => .error e
    | .ok ((rc, message, changed), w') =>
      .ok ({ return_code := rc, errors := message, changed := changed }, w')

/-- `extend_cmd` from `lvm.py` lines 1530-1544. -/
def extend_cmd (w : World) (args : ModuleArgs) (ss : Snapset) :
    Except PErr (CmdResult × World) :=
  if args.snapshot_lvm_verify_only then
    match extend_verify_snapshot_set w ss with
    | .error e => .error e
    | .ok (rc, message) =>
      .ok ({ return_code := rc, errors := message, changed := false }, w)
  else
    match extend_snapshot_set w ss args.ansible_check_mode with
    | .error e => .error e
    | .ok ((rc, message, changed), w') =>
      .ok ({ return_code := rc, errors := message, changed := changed }, w')

/-- `mount_cmd` from `lvm.py` lines 1564-1581. -/
def mount_cmd (w : World) (args : ModuleArgs) (ss : Snapset) :
    Except PErr (CmdResult × World) :=
  match mount_snapshot_set w ss args.snapshot_lvm_verify_only
          args.snapshot_lvm_mountpoint_create args.ansible_check_mode with
  | .error e => .error e
  | .ok ((rc, message, changed), w') =>
    .ok ({ return_code := rc, errors := message, changed := changed }, w')

/-- `umount_cmd` from `lvm.py` lines 1584-1599. -/
def umount_cmd (w : World) (args : ModuleArgs) (ss : Snapset) :
    Except PErr (CmdResult × World) :=
  match umount_snapshot_set w ss args.snapshot_lvm_verify_only args.ansible_check_mode with
  | .error e => .error e
  | .ok ((rc, message, changed), w') =>
    .ok ({ return_code := rc, errors := message, changed := changed }, w')

/-! Concrete inventories used as test fixtures by the theorems below. -/

/-- One group `vg0` (free 8 GiB, 4 MiB extents) holding one ordinary
source volume `lv0` of 100 MiB. -/
def Wbase : World :=
  { vgs := [{ name := "vg0", size := 17179869184, free := 8589934592,
              extent_size := 4194304 }],
    lvs := [{ vg := "vg0", name := "lv0", attr := "-wi-ao----".toList,
              size := 104857600 }],
    mounts := [], events := [] }

/-- The snapshot set naming `vg0/lv0` with suffix `snap` and 20 percent
required space. -/
def SSbase : Snapset :=
  { name := "snap", volumes := [{ vg := "vg0", lv := "lv0", percent_space_required := 20 }] }

/-- `Wbase` plus an ordinary (non-snapshot) volume already occupying the
derived name `lv0_snap`. -/
def Wconflict : World :=
  { Wbase with lvs := Wbase.lvs ++
      [{ vg := "vg0", name := "lv0_snap", attr := "-wi-a-----".toList, size := 104857600 }] }

/-- `Wbase` plus a snapshot already occupying the derived name `lv0_snap`. -/
def Wexisting : World :=
  { Wbase with lvs := Wbase.lvs ++
      [{ vg := "vg0", name := "lv0_snap", attr := "swi-a-s---".toList, size := 536870912 }] }

/-- Two source volumes `a` and `b`; `a_snap` has vanished while `b_snap`
still exists as a snapshot. -/
def Wvanished : World :=
  { vgs := [{ name := "vg0", size := 17179869184, free := 8589934592,
              extent_size := 4194304 }],
    lvs := [{ vg := "vg0", name := "a", attr := "owi-aos---".toList, size := 104857600 },
            { vg := "vg0", name := "b", attr := "owi-aos---".toList, size := 104857600 },
            { vg := "vg0", name := "b_snap", attr := "swi-a-s---".toList, size := 536870912 }],
    mounts := [], events := [] }

/-- The two-member snapshot set over `Wvanished`. -/
def SSvanished : Snapset :=
  { name := "snap", volumes := [{ vg := "vg0", lv := "a", percent_space_required := 20 },
                                { vg := "vg0", lv := "b", percent_space_required := 20 }] }

/-- A source volume `a` whose snapshot `a_snap` is open (attribute
position 5 is the character for open/in-use). -/
def Winuse : World :=
  { vgs := [{ name := "vg0", size := 17179869184, free := 8589934592,
              extent_size := 4194304 }],
    lvs := [{ vg := "vg0", name := "a", attr := "owi-aos---".toList, size := 104857600 },
            { vg := "vg0", name := "a_snap", attr := "swi-aos---".toList, size := 536870912 }],
    mounts := [], events := [] }

def SSinuse : Snapset :=
  { name := "snap", volumes := [{ vg := "vg0", lv := "a", percent_space_required := 20 }] }

/-- Two volume groups both holding a logical volume named `data`:
`vgA` (free 1 GiB) a 10 GiB one, `vgB` (free 8 GiB) a 100 MiB one. -/
def Wshared : World :=
  { vgs := [{ name := "vgA", size := 17179869184, free := 1073741824,
              extent_size := 4194304 },
            { name := "vgB", size := 17179869184, free := 8589934592,
              extent_size := 4194304 }],
    lvs := [{ vg := "vgA", name := "data", attr := "-wi-ao----".toList, size := 10737418240 },
            { vg := "vgB", name := "data", attr := "-wi-ao----".toList, size := 104857600 }],
    mounts := [], events := [] }

/-- The set whose single member is `vgA/data` at 20 percent. -/
def SSshared : Snapset :=
  { name := "snap", volumes := [{ vg := "vgA", lv := "data", percent_space_required := 20 }] }

/-- A set member whose derived snapshot currently exists (along with its
volume group) and is open: attribute position 5 holds the open
character. -/
def member_target_open (w : World) (suffix : String) (v : VolSpec) : Bool :=
  v.vg != "" && (findVG w v.vg).isSome &&
    (match findLV w v.vg (get_snapshot_name v.lv suffix) with
     | some r => r.attr.get? 5 == some 'o'
     | none => false)

/-- A set member whose source group and logical volume both exist (with
non-empty names, as `verify_snapset_source_lvs_exist` requires). -/
def source_exists (w : World) (v : VolSpec) : Bool :=
  v.vg != "" && (findVG w v.vg).isSome && v.lv != "" && (findLV w v.vg v.lv).isSome

/-- Module arguments selecting verify-only mode. -/
def argsVerify : ModuleArgs :=
  { ansible_check_mode := false, snapshot_lvm_verify_only := true,
    snapshot_lvm_mountpoint_create := false }

/-- The one-member set naming `vg0/b` (whose snapshot `b_snap` exists in
`Wvanished`). -/
def SSrm : Snapset :=
  { name := "snap", volumes := [{ vg := "vg0", lv := "b", percent_space_required := 20 }] }

/-- `Wvanished` after `b_snap` is removed: the remove command is on the
event log. -/
def WrmAfter : World :=
  { vgs := Wvanished.vgs,
    lvs := [{ vg := "vg0", name := "a", attr := "owi-aos---".toList, size := 104857600 },
            { vg := "vg0", name := "b", attr := "owi-aos---".toList, size := 104857600 }],
    mounts := [], events := [["lvremove", "-y", "vg0/b_snap"]] }

/-! Helper lemmas about the sizing math. -/

lemma percentof_ceil_mono_amount {p a b : Nat} (h : a ≤ b) :
    percentof_ceil p a ≤ percentof_ceil p b :=
  Nat.div_le_div_right (Nat.add_le_add_right (Nat.mul_le_mul (Nat.le_refl p) h) 99)

lemma percentof_ceil_mono_percent {p q a : Nat} (h : p ≤ q) :
    percentof_ceil p a ≤ percentof_ceil q a :=
  Nat.div_le_div_right (Nat.add_le_add_right (Nat.mul_le_mul h (Nat.le_refl a)) 99)

lemma round_up_mono {v v' m : Nat} (h : v ≤ v') : round_up v m ≤ round_up v' m := by
  unfold round_up
  split
  · exact h
  · exact Nat.mul_le_mul (Nat.div_le_div_right (by omega)) (Nat.le_refl m)

lemma round_up_dvd {v m : Nat} (h : m ≠ 0) : m ∣ round_up v m := by
  unfold round_up
  rw [if_neg h]
  exact dvd_mul_left m _

lemma get_snapshot_size_required_def (s p e : Nat) :
    get_snapshot_size_required s p e
      = max LVM_MIN_SNAPSHOT_SIZE (round_up (percentof_ceil p s) e) := by
  unfold get_snapshot_size_required
  dsimp only
  rcases Nat.lt_or_ge (round_up (percentof_ceil p s) e) LVM_MIN_SNAPSHOT_SIZE with h | h
  · rw [if_pos h, Nat.max_eq_left (Nat.le_of_lt h)]
  · rw [if_neg (Nat.not_lt.mpr h), Nat.max_eq_right h]

/-- C7 (corrected): `get_snapshot_size_required` is monotone in the source
size and in the percent and never below the 512 MiB floor, and its result
is a multiple of the (positive) extent size except when the floor itself
is returned — the floor constant need not be a multiple of an arbitrary
extent size. -/
theorem size_required_props_amended (s s' p p' e : Nat) (he : 0 < e)
    (hs : s ≤ s') (hp : p ≤ p') :
    get_snapshot_size_required s p e ≤ get_snapshot_size_required s' p e ∧
    get_snapshot_size_required s p e ≤ get_snapshot_size_required s p' e ∧
    LVM_MIN_SNAPSHOT_SIZE ≤ get_snapshot_size_required s p e ∧
    (e ∣ get_snapshot_size_required s p e ∨
      get_snapshot_size_required s p e = LVM_MIN_SNAPSHOT_SIZE) := by
  refine ⟨?_, ?_, ?_, ?_⟩
  · rw [get_snapshot_size_required_def, get_snapshot_size_required_def]
    exact max_le_max (Nat.le_refl _) (round_up_mono (percentof_ceil_mono_amount hs))
  · rw [get_snapshot_size_required_def, get_snapshot_size_required_def]
    exact max_le_max (Nat.le_refl _) (round_up_mono (percentof_ceil_mono_percent hp))
  · rw [get_snapshot_size_required_def]
    exact Nat.le_max_left _ _
  · rw [get_snapshot_size_required_def]
    rcases Nat.lt_or_ge (round_up (percentof_ceil p s) e) LVM_MIN_SNAPSHOT_SIZE with h | h
    · right
      exact Nat.max_eq_left (Nat.le_of_lt h)
    · left
      rw [Nat.max_eq_right h]
      exact round_up_dvd (by omega)

/-- C7 (counterexample): at source size 1, percent 2 and extent size 3 the
result is the 512 MiB floor, which is not a multiple of 3, refuting the
claim that the result is always a multiple of the supplied extent size. -/
theorem size_required_multiple_counterexample :
    get_snapshot_size_required 1 2 3 = 536870912 ∧
    ¬ (3 ∣ get_snapshot_size_required 1 2 3) := by
  constructor
  · rfl
  · show ¬ (3 ∣ (536870912 : Nat))
    omega

/-- Witness for C7's amended theorem at concrete inputs 1 ≤ 2, 2 ≤ 3,
extent 4. -/
theorem size_required_props_amended_witness :
    (0 < 4 ∧ 1 ≤ 2 ∧ 2 ≤ 3) ∧
    (get_snapshot_size_required 1 2 4 ≤ get_snapshot_size_required 2 2 4 ∧
     get_snapshot_size_required 1 2 4 ≤ get_snapshot_size_required 1 3 4 ∧
     LVM_MIN_SNAPSHOT_SIZE ≤ get_snapshot_size_required 1 2 4 ∧
     (4 ∣ get_snapshot_size_required 1 2 4 ∨
       get_snapshot_size_required 1 2 4 = LVM_MIN_SNAPSHOT_SIZE)) :=
  ⟨⟨by omega, by omega, by omega⟩,
   size_required_props_amended 1 2 2 3 4 (by omega) (by omega) (by omega)⟩

/-- C8 (confirmed): the two worked sizing examples of the spec: 10 GiB at
20 percent with 4 MiB extents yields exactly 2 GiB, and 100 MiB at 20
percent yields the 512 MiB floor. -/
theorem size_required_spec_examples :
    get_snapshot_size_required 10737418240 20 4194304 = 2147483648 ∧
    get_snapshot_size_required 104857600 20 4194304 = 536870912 :=
  ⟨rfl, rfl⟩

/-- C3 (code bug): for a volume absent from the inventory (the reserved
not-found exit code 5), `lvm_get_attr` itself returns the success status
with the Python boolean `False`, but `lvm_is_snapshot` and
`lvm_is_thinpool` then compare their status against the raw exit code 5
(dead, since the success status is 0) and subscript the boolean with
`[0]`, raising `TypeError` instead of returning `(SNAPSHOT_OK, False)`. -/
theorem notfound_probe_raises_typeerror :
    lvm_get_attr Wbase "vg0" "nolv" = .ok (SNAPSHOT_OK, .vbool false) ∧
    lvm_is_snapshot Wbase "vg0" "nolv" = .error .typeError ∧
    lvm_is_thinpool Wbase "vg0" "nolv" = .error .typeError :=
  ⟨rfl, rfl, rfl⟩

/-- C6 (code bug): because `VGSpaceState.lvs` is a shared Python class
attribute, the space dictionary keys logical volumes by bare name across
all groups, and `vgB`'s 100 MiB `data` overwrites `vgA`'s 10 GiB `data`.
The set precheck therefore succeeds on `Wshared` although the required
size for the member `vgA/data` computed from its own 10 GiB source
(2 GiB) exceeds `vgA`'s 1 GiB of free space. -/
theorem precheck_space_shared_dict_bug :
    (match snapshot_precheck_lv_set_space Wshared SSshared with
      | .ok (rc, _, _) => rc = SNAPSHOT_OK
      | .error _ => False) ∧
    (findLV Wshared "vgA" "data").map LVrec.size = some 10737418240 ∧
    (findVG Wshared "vgA").map VGrec.free = some 1073741824 ∧
    get_snapshot_size_required 10737418240 20 4194304 > 1073741824 := by
  refine ⟨?_, rfl, rfl, ?_⟩
  · rfl
  · show (1073741824 : Nat) < 2147483648
    omega

/-! Helper lemmas about the probes. -/

lemma lvm_lv_exists_fst (w : World) (a b : String) :
    (lvm_lv_exists w a b).1 = SNAPSHOT_OK := by
  unfold lvm_lv_exists
  split
  · rfl
  · split
    · rfl
    · rfl

lemma lvm_lv_exists_lv_none {w : World} {a b : String} (h : findLV w a b = none) :
    (lvm_lv_exists w a b).2.2 = false := by
  unfold lvm_lv_exists
  split
  · rfl
  · split
    · rfl
    · simp [h]

lemma lvm_lv_exists_eval {w : World} {a b : String} (ha : a ≠ "") (hb : b ≠ "") :
    lvm_lv_exists w a b = (SNAPSHOT_OK, (findVG w a).isSome, (findLV w a b).isSome) := by
  unfold lvm_lv_exists
  rw [if_neg ha, if_neg hb]

lemma get_snapshot_name_ne (a b : String) : get_snapshot_name a b ≠ "" := by
  unfold get_snapshot_name
  intro h
  have hlen := congrArg String.length h
  simp [String.length_append] at hlen
  exact (by decide : ("_" : String).length ≠ 0) hlen.1.2

/-- C9 helper: the in-use precheck loop falls through when no member's
snapshot exists. -/
lemma remove_precheck_loop_all_absent {w : World} {suffix : String} :
    ∀ items : List VolSpec,
      (∀ v ∈ items, findLV w v.vg (get_snapshot_name v.lv suffix) = none) →
      remove_precheck_loop w suffix items = .ok none := by
  intro items
  induction items with
  | nil => intro _; rfl
  | cons v rest ih =>
    intro h
    have h2 := lvm_lv_exists_lv_none (h v (List.mem_cons_self v rest))
    unfold remove_precheck_loop
    simp [lvm_lv_exists_fst, h2]
    exact ih (fun u hu => h u (List.mem_cons_of_mem v hu))

/-- C9 helper: the removal loop is a no-op when no member's snapshot
exists. -/
lemma remove_loop_all_absent {w : World} {suffix : String} {cm : Bool} :
    ∀ items : List VolSpec,
      (∀ v ∈ items, findLV w v.vg (get_snapshot_name v.lv suffix) = none) →
      remove_loop suffix cm items w false = .ok ((SNAPSHOT_OK, "", false), w) := by
  intro items
  induction items with
  | nil => intro _; rfl
  | cons v rest ih =>
    intro h
    have h2 := lvm_lv_exists_lv_none (h v (List.mem_cons_self v rest))
    unfold remove_loop
    simp [lvm_lv_exists_fst, h2]
    exact ih (fun u hu => h u (List.mem_cons_of_mem v hu))

/-- C9 (confirmed): removing a snapshot set none of whose derived
snapshots exist returns `SNAPSHOT_OK` with `changed = false`, leaving the
world untouched (in particular, no remove command is issued). -/
theorem remove_absent_set_idempotent (w : World) (ss : Snapset) (cm : Bool)
    (h : ∀ v ∈ ss.volumes, findLV w v.vg (get_snapshot_name v.lv ss.name) = none) :
    remove_snapshot_set w ss cm = .ok ((SNAPSHOT_OK, "", false), w) := by
  unfold remove_snapshot_set
  rw [remove_precheck_loop_all_absent ss.volumes h]
  exact remove_loop_all_absent ss.volumes h

/-- Witness for C9 on the concrete inventory `Wbase` where `lv0_snap` is
absent. -/
theorem remove_absent_set_idempotent_witness :
    (∀ v ∈ SSbase.volumes, findLV Wbase v.vg (get_snapshot_name v.lv SSbase.name) = none) ∧
    remove_snapshot_set Wbase SSbase false = .ok ((SNAPSHOT_OK, "", false), Wbase) :=
  ⟨by decide, remove_absent_set_idempotent Wbase SSbase false (by decide)⟩

/-- C4 (counterexample): on `Wvanished` the first member's snapshot
`a_snap` has vanished while the second member's snapshot `b_snap` still
exists; reverting the set returns OK but terminates at the first member —
`b_snap` is left in place and no revert command is executed — refuting
the claim that the operation continues with the remaining volumes and
stops early only on a non-OK per-volume result. -/
theorem revert_vanished_stops_early :
    revert_snapshot_set Wvanished SSvanished false =
      .ok ((SNAPSHOT_OK, "snapshot not found with name: vg0/a_snap", false), Wvanished) ∧
    (findLV Wvanished "vg0" "b_snap").isSome = true ∧
    Wvanished.events = [] :=
  ⟨rfl, rfl, rfl⟩

/-- C4 (corrected): in the apply path of revert a vanished target is
treated as success — the not-found status is coerced to `SNAPSHOT_OK` —
but the operation returns at that volume: with the vanished member first
in the set, revert returns OK and `changed = false` immediately, mutating
nothing and not processing the remaining volumes. -/
theorem revert_vanished_ok_amended (w : World) (ss : Snapset) (v : VolSpec)
    (rest : List VolSpec) (hvols : ss.volumes = v :: rest)
    (hnone : findLV w v.vg (get_snapshot_name v.lv ss.name) = none) :
    revert_snapshot_set w ss false =
      .ok ((SNAPSHOT_OK,
            "snapshot not found with name: " ++ v.vg ++ "/" ++ get_snapshot_name v.lv ss.name,
            false), w) := by
  have hrl : revert_lv w v.vg (get_snapshot_name v.lv ss.name) false =
      .ok ((ERROR_LV_NOTFOUND,
            "snapshot not found with name: " ++ v.vg ++ "/" ++ get_snapshot_name v.lv ss.name),
           w) := by
    unfold revert_lv
    simp [lvm_lv_exists_fst, lvm_lv_exists_lv_none hnone]
  unfold revert_snapshot_set
  rw [hvols]
  unfold revert_loop
  rw [hrl]
  rfl

/-- Witness for C4's amended theorem on `Wvanished`. -/
theorem revert_vanished_ok_amended_witness :
    (SSvanished.volumes
        = ({ vg := "vg0", lv := "a", percent_space_required := 20 } : VolSpec)
          :: [{ vg := "vg0", lv := "b", percent_space_required := 20 }] ∧
     findLV Wvanished "vg0"
        (get_snapshot_name "a" SSvanished.name) = none) ∧
    revert_snapshot_set Wvanished SSvanished false =
      .ok ((SNAPSHOT_OK, "snapshot not found with name: " ++ "vg0" ++ "/"
            ++ get_snapshot_name "a" SSvanished.name, false), Wvanished) :=
  ⟨⟨rfl, rfl⟩,
   revert_vanished_ok_amended Wvanished SSvanished
     { vg := "vg0", lv := "a", percent_space_required := 20 }
     [{ vg := "vg0", lv := "b", percent_space_required := 20 }] rfl rfl⟩

/-! C5: the in-use precheck of the remove path. -/

lemma attr_get5_of_wf {l : List Char} (h : 6 ≤ l.length) : ∃ c, l.get? 5 = some c := by
  cases hg : l.get? 5 with
  | none => exact absurd (List.get?_eq_none.mp hg) (by omega)
  | some c => exact ⟨c, rfl⟩

lemma lvm_is_inuse_eval {w : World} {vg_name lv_name : String} {r : LVrec} {c : Char}
    (hfind : findLV w vg_name lv_name = some r) (hlen : r.attr.length ≠ 0)
    (hc : r.attr.get? 5 = some c) :
    lvm_is_inuse w vg_name lv_name = .ok (SNAPSHOT_OK, c == 'o') := by
  unfold lvm_is_inuse
  rw [hfind]
  have hc' : r.attr[5]? = some c := by
    rw [← List.get?_eq_getElem?]
    exact hc
  simp [hlen, hc']

/-- C5 helper: the precheck loop returns the in-use failure at the first
open member, scanning past earlier members that are absent or closed. -/
lemma remove_precheck_loop_inuse {w : World} {suffix : String}
    (hWF : ∀ lv ∈ w.lvs, 6 ≤ lv.attr.length) (v : VolSpec)
    (hv : member_target_open w suffix v = true) :
    ∀ pre : List VolSpec, (∀ u ∈ pre, member_target_open w suffix u = false) →
      ∀ post : List VolSpec,
        remove_precheck_loop w suffix (pre ++ v :: post) =
          .ok (some (ERROR_REMOVE_FAILED_INUSE,
               "volume is in use: " ++ v.vg ++ "/" ++ get_snapshot_name v.lv suffix)) := by
  intro pre
  induction pre with
  | nil =>
    intro _ post
    simp only [member_target_open, Bool.and_eq_true, bne_iff_ne] at hv
    obtain ⟨⟨hvg, hfvg⟩, hmatch⟩ := hv
    cases hfind : findLV w v.vg (get_snapshot_name v.lv suffix) with
    | none => rw [hfind] at hmatch; exact absurd hmatch (by simp)
    | some r =>
      rw [hfind] at hmatch
      have hget : r.attr.get? 5 = some 'o' := by
        simpa using hmatch
      have hlen : r.attr.length ≠ 0 := by
        have := hWF r (List.mem_of_find?_eq_some hfind)
        omega
      rw [List.nil_append]
      unfold remove_precheck_loop
      simp [lvm_lv_exists_eval hvg (get_snapshot_name_ne v.lv suffix), hfvg, hfind,
            lvm_is_inuse_eval hfind hlen hget]
  | cons u pre' ih =>
    intro hpre post
    have hu := hpre u (List.mem_cons_self u pre')
    have hrest : ∀ x ∈ pre', member_target_open w suffix x = false :=
      fun x hx => hpre x (List.mem_cons_of_mem u hx)
    rw [List.cons_append]
    by_cases hvg0 : u.vg = ""
    · unfold remove_precheck_loop
      simp [lvm_lv_exists, hvg0]
      exact ih hrest post
    · cases hfvg : findVG w u.vg with
      | none =>
        unfold remove_precheck_loop
        simp [lvm_lv_exists_eval hvg0 (get_snapshot_name_ne u.lv suffix), hfvg]
        exact ih hrest post
      | some g =>
        cases hfind : findLV w u.vg (get_snapshot_name u.lv suffix) with
        | none =>
          unfold remove_precheck_loop
          simp [lvm_lv_exists_eval hvg0 (get_snapshot_name_ne u.lv suffix), hfvg, hfind]
          exact ih hrest post
        | some r =>
          have hlen6 := hWF r (List.mem_of_find?_eq_some hfind)
          obtain ⟨c, hc⟩ := attr_get5_of_wf hlen6
          have hlen : r.attr.length ≠ 0 := by omega
          have hco : (c == 'o') = false := by
            have h1 : (u.vg != "") = true := bne_iff_ne.mpr hvg0
            have h2 : (findVG w u.vg).isSome = true := by rw [hfvg]; rfl
            simp only [member_target_open, hfind, h1, h2, Bool.true_and] at hu
            rw [hc] at hu
            have hne : c ≠ 'o' := by
              intro hceq
              rw [hceq] at hu
              simp at hu
            exact beq_eq_false_iff_ne.mpr hne
          unfold remove_precheck_loop
          simp [lvm_lv_exists_eval hvg0 (get_snapshot_name_ne u.lv suffix), hfvg, hfind,
                lvm_is_inuse_eval hfind hlen hc, hco]
          exact ih hrest post

/-- C5 (confirmed): when some member's snapshot is open, removing the set
fails with `ERROR_REMOVE_FAILED_INUSE` and `changed = false` before any
remove command is issued — the returned world is the input world. -/
theorem remove_inuse_precheck_blocks (w : World) (ss : Snapset) (cm : Bool)
    (pre : List VolSpec) (v : VolSpec) (post : List VolSpec)
    (hWF : ∀ lv ∈ w.lvs, 6 ≤ lv.attr.length)
    (hsplit : ss.volumes = pre ++ v :: post)
    (hpre : ∀ u ∈ pre, member_target_open w ss.name u = false)
    (hv : member_target_open w ss.name v = true) :
    remove_snapshot_set w ss cm =
      .ok ((ERROR_REMOVE_FAILED_INUSE,
            "volume is in use: " ++ v.vg ++ "/" ++ get_snapshot_name v.lv ss.name,
            false), w) := by
  unfold remove_snapshot_set
  rw [hsplit, remove_precheck_loop_inuse hWF v hv pre hpre post]

/-- Witness for C5 on `Winuse`, whose single member's snapshot `a_snap`
is open. -/
theorem remove_inuse_precheck_blocks_witness :
    ((∀ lv ∈ Winuse.lvs, 6 ≤ lv.attr.length) ∧
     SSinuse.volumes
       = [] ++ ({ vg := "vg0", lv := "a", percent_space_required := 20 } : VolSpec) :: [] ∧
     member_target_open Winuse SSinuse.name
       { vg := "vg0", lv := "a", percent_space_required := 20 } = true) ∧
    remove_snapshot_set Winuse SSinuse false =
      .ok ((ERROR_REMOVE_FAILED_INUSE,
            "volume is in use: " ++ "vg0" ++ "/" ++ get_snapshot_name "a" SSinuse.name,
            false), Winuse) :=
  ⟨⟨by decide, rfl, by decide⟩,
   remove_inuse_precheck_blocks Winuse SSinuse false []
     { vg := "vg0", lv := "a", percent_space_required := 20 } [] (by decide) rfl
     (by decide) (by decide)⟩

/-! C2 and C10: the create precheck on an already-occupied target name. -/

lemma verify_snapset_source_loop_ok {w : World} :
    ∀ items : List VolSpec, (∀ v ∈ items, source_exists w v = true) →
      verify_snapset_source_loop w items = (SNAPSHOT_OK, "") := by
  intro items
  induction items with
  | nil => intro _; rfl
  | cons v rest ih =>
    intro h
    have hv := h v (List.mem_cons_self v rest)
    simp only [source_exists, Bool.and_eq_true, bne_iff_ne] at hv
    obtain ⟨⟨⟨hvg, hfvg⟩, hlv⟩, hflv⟩ := hv
    unfold verify_snapset_source_loop
    simp [lvm_lv_exists, hvg, hlv, hfvg, hflv]
    exact ih (fun u hu => h u (List.mem_cons_of_mem v hu))

lemma lvm_is_snapshot_eval {w : World} {vg_name lv_name : String} {r : LVrec}
    {c : Char} {t : List Char} (hfind : findLV w vg_name lv_name = some r)
    (hattr : r.attr = c :: t) :
    lvm_is_snapshot w vg_name lv_name = .ok (SNAPSHOT_OK, c == 's') := by
  simp only [lvm_is_snapshot, lvm_get_attr, hfind, hattr]
  rfl

/-- C10 helper: the target-absence loop returns `ERROR_ALREADY_EXISTS` at
the first member whose derived name exists, here a snapshot. -/
lemma verify_target_loop_already {w : World} {suffix : String} (v : VolSpec) (r : LVrec)
    (t : List Char) (hvg : v.vg ≠ "")
    (hfind : findLV w v.vg (get_snapshot_name v.lv suffix) = some r)
    (hattr : r.attr = 's' :: t) :
    ∀ pre : List VolSpec,
      (∀ u ∈ pre, findLV w u.vg (get_snapshot_name u.lv suffix) = none) →
      ∀ post : List VolSpec,
        verify_snapset_target_loop w suffix (pre ++ v :: post) =
          .ok (ERROR_ALREADY_EXISTS,
               "snapshot already exists: " ++ v.vg ++ "/" ++ get_snapshot_name v.lv suffix) := by
  intro pre
  induction pre with
  | nil =>
    intro _ post
    rw [List.nil_append]
    unfold verify_snapset_target_loop
    simp [lvm_lv_exists_eval hvg (get_snapshot_name_ne v.lv suffix), hfind,
          lvm_is_snapshot_eval hfind hattr]
  | cons u pre' ih =>
    intro hpre post
    have hu := hpre u (List.mem_cons_self u pre')
    rw [List.cons_append]
    unfold verify_snapset_target_loop
    simp [lvm_lv_exists_fst, lvm_lv_exists_lv_none hu]
    exact ih (fun x hx => hpre x (List.mem_cons_of_mem u hx)) post

/-- C2 helper: the target-absence loop returns the generic
`ERROR_SNAPSET_CHECK_STATUS_FAILED` at the first member whose derived name
exists as a non-snapshot volume. -/
lemma verify_target_loop_conflict {w : World} {suffix : String} (v : VolSpec) (r : LVrec)
    (c : Char) (t : List Char) (hvg : v.vg ≠ "")
    (hfind : findLV w v.vg (get_snapshot_name v.lv suffix) = some r)
    (hattr : r.attr = c :: t) (hc : c ≠ 's') :
    ∀ pre : List VolSpec,
      (∀ u ∈ pre, findLV w u.vg (get_snapshot_name u.lv suffix) = none) →
      ∀ post : List VolSpec,
        verify_snapset_target_loop w suffix (pre ++ v :: post) =
          .ok (ERROR_SNAPSET_CHECK_STATUS_FAILED,
               "volume exists that matches the pattern: " ++ v.vg ++ "/"
                 ++ get_snapshot_name v.lv suffix) := by
  intro pre
  induction pre with
  | nil =>
    intro _ post
    rw [List.nil_append]
    unfold verify_snapset_target_loop
    simp [lvm_lv_exists_eval hvg (get_snapshot_name_ne v.lv suffix), hfind,
          lvm_is_snapshot_eval hfind hattr, beq_eq_false_iff_ne.mpr hc]
  | cons u pre' ih =>
    intro hpre post
    have hu := hpre u (List.mem_cons_self u pre')
    rw [List.cons_append]
    unfold verify_snapset_target_loop
    simp [lvm_lv_exists_fst, lvm_lv_exists_lv_none hu]
    exact ih (fun x hx => hpre x (List.mem_cons_of_mem u hx)) post

/-- C10 (confirmed): when every source exists and the first member whose
derived snapshot name is occupied holds an actual snapshot, the apply path
of create returns `SNAPSHOT_OK` with `changed = false` for the whole set
and the world unchanged — no snapshots are created for the remaining
members (the AlreadyExists-to-success collapse is set-wide). -/
theorem create_collapses_existing_snapshot (w : World) (ss : Snapset) (cm : Bool)
    (pre : List VolSpec) (v : VolSpec) (post : List VolSpec) (r : LVrec) (t : List Char)
    (hsrc : ∀ u ∈ ss.volumes, source_exists w u = true)
    (hsplit : ss.volumes = pre ++ v :: post)
    (hpre : ∀ u ∈ pre, findLV w u.vg (get_snapshot_name u.lv ss.name) = none)
    (hfind : findLV w v.vg (get_snapshot_name v.lv ss.name) = some r)
    (hattr : r.attr = 's' :: t) :
    snapshot_create_set w ss cm =
      .ok ((SNAPSHOT_OK,
            "snapshot already exists: " ++ v.vg ++ "/" ++ get_snapshot_name v.lv ss.name,
            false), w) := by
  have hvmem : v ∈ ss.volumes := by
    rw [hsplit]
    exact List.mem_append_right pre (List.mem_cons_self v post)
  have hvg : v.vg ≠ "" := by
    have := hsrc v hvmem
    simp only [source_exists, Bool.and_eq_true, bne_iff_ne] at this
    exact this.1.1.1
  have hsource : verify_snapset_source_lvs_exist w ss = (SNAPSHOT_OK, "") :=
    verify_snapset_source_loop_ok ss.volumes hsrc
  have htarget : verify_snapset_target_no_existing w ss =
      .ok (ERROR_ALREADY_EXISTS,
           "snapshot already exists: " ++ v.vg ++ "/" ++ get_snapshot_name v.lv ss.name) := by
    unfold verify_snapset_target_no_existing
    rw [hsplit]
    exact verify_target_loop_already v r t hvg hfind hattr pre hpre post
  unfold snapshot_create_set snapshot_precheck_lv_set
  rw [hsource, htarget]
  rfl

/-- Witness for C10 on `Wexisting`, where `lv0_snap` already exists as a
snapshot. -/
theorem create_collapses_existing_snapshot_witness :
    ((∀ u ∈ SSbase.volumes, source_exists Wexisting u = true) ∧
     SSbase.volumes
       = [] ++ ({ vg := "vg0", lv := "lv0", percent_space_required := 20 } : VolSpec) :: [] ∧
     findLV Wexisting "vg0" (get_snapshot_name "lv0" SSbase.name)
       = some { vg := "vg0", name := "lv0_snap", attr := "swi-a-s---".toList,
                size := 536870912 }) ∧
    snapshot_create_set Wexisting SSbase false =
      .ok ((SNAPSHOT_OK,
            "snapshot already exists: " ++ "vg0" ++ "/" ++ get_snapshot_name "lv0" SSbase.name,
            false), Wexisting) :=
  ⟨⟨by decide, rfl, by decide⟩,
   create_collapses_existing_snapshot Wexisting SSbase false []
     { vg := "vg0", lv := "lv0", percent_space_required := 20 } []
     { vg := "vg0", name := "lv0_snap", attr := "swi-a-s---".toList, size := 536870912 }
     "wi-a-s---".toList (by decide) rfl (by decide) (by decide) (by decide)⟩

/-- C2 (counterexample): on `Wconflict`, where the derived name `lv0_snap`
is taken by an ordinary volume, the create operation fails with the
generic `ERROR_SNAPSET_CHECK_STATUS_FAILED` — not with
`ERROR_NAME_CONFLICT` as the claim states (the `snapshot_lv` branch that
produces `ERROR_NAME_CONFLICT` is cut off by the set-level precheck). -/
theorem create_conflict_status_counterexample :
    snapshot_create_set Wconflict SSbase false =
      .ok ((ERROR_SNAPSET_CHECK_STATUS_FAILED,
            "volume exists that matches the pattern: vg0/lv0_snap", false), Wconflict) ∧
    ERROR_SNAPSET_CHECK_STATUS_FAILED ≠ ERROR_NAME_CONFLICT :=
  ⟨rfl, by decide⟩

/-- C2 (corrected): when every source exists and the first member whose
derived name is occupied holds a non-snapshot volume, create fails before
mutating anything, with `changed = false` and the set-level status
`ERROR_SNAPSET_CHECK_STATUS_FAILED` (not `ERROR_NAME_CONFLICT`). -/
theorem create_name_conflict_amended (w : World) (ss : Snapset) (cm : Bool)
    (pre : List VolSpec) (v : VolSpec) (post : List VolSpec) (r : LVrec)
    (c : Char) (t : List Char)
    (hsrc : ∀ u ∈ ss.volumes, source_exists w u = true)
    (hsplit : ss.volumes = pre ++ v :: post)
    (hpre : ∀ u ∈ pre, findLV w u.vg (get_snapshot_name u.lv ss.name) = none)
    (hfind : findLV w v.vg (get_snapshot_name v.lv ss.name) = some r)
    (hattr : r.attr = c :: t) (hc : c ≠ 's') :
    snapshot_create_set w ss cm =
      .ok ((ERROR_SNAPSET_CHECK_STATUS_FAILED,
            "volume exists that matches the pattern: " ++ v.vg ++ "/"
              ++ get_snapshot_name v.lv ss.name,
            false), w) := by
  have hvmem : v ∈ ss.volumes := by
    rw [hsplit]
    exact List.mem_append_right pre (List.mem_cons_self v post)
  have hvg : v.vg ≠ "" := by
    have := hsrc v hvmem
    simp only [source_exists, Bool.and_eq_true, bne_iff_ne] at this
    exact this.1.1.1
  have hsource : verify_snapset_source_lvs_exist w ss = (SNAPSHOT_OK, "") :=
    verify_snapset_source_loop_ok ss.volumes hsrc
  have htarget : verify_snapset_target_no_existing w ss =
      .ok (ERROR_SNAPSET_CHECK_STATUS_FAILED,
           "volume exists that matches the pattern: " ++ v.vg ++ "/"
             ++ get_snapshot_name v.lv ss.name) := by
    unfold verify_snapset_target_no_existing
    rw [hsplit]
    exact verify_target_loop_conflict v r c t hvg hfind hattr hc pre hpre post
  unfold snapshot_create_set snapshot_precheck_lv_set
  rw [hsource, htarget]
  rfl

/-- Witness for C2's amended theorem on `Wconflict`. -/
theorem create_name_conflict_amended_witness :
    ((∀ u ∈ SSbase.volumes, source_exists Wconflict u = true) ∧
     findLV Wconflict "vg0" (get_snapshot_name "lv0" SSbase.name)
       = some { vg := "vg0", name := "lv0_snap", attr := "-wi-a-----".toList,
                size := 104857600 } ∧
     ('-' : Char) ≠ 's') ∧
    snapshot_create_set Wconflict SSbase false =
      .ok ((ERROR_SNAPSET_CHECK_STATUS_FAILED,
            "volume exists that matches the pattern: " ++ "vg0" ++ "/"
              ++ get_snapshot_name "lv0" SSbase.name,
            false), Wconflict) :=
  ⟨⟨by decide, by decide, by decide⟩,
   create_name_conflict_amended Wconflict SSbase false []
     { vg := "vg0", lv := "lv0", percent_space_required := 20 } []
     { vg := "vg0", name := "lv0_snap", attr := "-wi-a-----".toList, size := 104857600 }
     '-' "wi-a-----".toList (by decide) rfl (by decide) (by decide) (by decide) (by decide)⟩

/-! C1: the changed flag.  Step lemmas: in apply mode (dry run off) each
per-volume operation either reports success having appended exactly one
mutating command to the event log, or fails leaving the world untouched. -/

lemma snapshot_lv_apply {w : World} {vg_name lv_name suffix : String} {n : Nat}
    {res : Nat × String} {w' : World}
    (h : snapshot_lv w vg_name lv_name suffix n false = .ok (res, w')) :
    (res.1 = SNAPSHOT_OK ∧ eventCount w' = eventCount w + 1) ∨
    (res.1 ≠ SNAPSHOT_OK ∧ w' = w) := by
  unfold snapshot_lv at h
  cases hex : (lvm_lv_exists w vg_name (get_snapshot_name lv_name suffix)).2.2 with
  | false =>
    simp only [hex, Bool.false_eq_true, if_false, ite_false] at h
    simp only [Except.ok.injEq, Prod.mk.injEq] at h
    obtain ⟨h1, h2⟩ := h
    subst h1
    subst h2
    left
    exact ⟨rfl, by simp [run_lvcreate, eventCount]⟩
  | true =>
    simp only [hex, if_true, ite_true] at h
    cases hs : lvm_is_snapshot w vg_name (get_snapshot_name lv_name suffix) with
    | error e => simp [hs] at h
    | ok p =>
      obtain ⟨rc, b⟩ := p
      simp only [hs] at h
      by_cases hrc : rc = SNAPSHOT_OK
      · subst hrc
        simp only [ne_eq, not_true_eq_false, if_false, ite_false] at h
        cases hb : b with
        | true =>
          simp only [hb, if_true, ite_true] at h
          simp only [Except.ok.injEq, Prod.mk.injEq] at h
          obtain ⟨h1, h2⟩ := h
          subst h1
          subst h2
          right
          exact ⟨(by decide : ERROR_ALREADY_EXISTS ≠ SNAPSHOT_OK), rfl⟩
        | false =>
          simp only [hb, Bool.false_eq_true, if_false, ite_false] at h
          simp only [Except.ok.injEq, Prod.mk.injEq] at h
          obtain ⟨h1, h2⟩ := h
          subst h1
          subst h2
          right
          exact ⟨(by decide : ERROR_NAME_CONFLICT ≠ SNAPSHOT_OK), rfl⟩
      · rw [if_pos (by simp [hrc])] at h
        simp only [Except.ok.injEq, Prod.mk.injEq] at h
        obtain ⟨h1, h2⟩ := h
        subst h1
        subst h2
        right
        exact ⟨(by decide : ERROR_VERIFY_COMMAND_FAILED ≠ SNAPSHOT_OK), rfl⟩

lemma lvm_snapshot_remove_apply {w : World} {vg_name snapshot_name : String}
    {res : Nat × String} {w' : World}
    (h : lvm_snapshot_remove w vg_name snapshot_name false = .ok (res, w')) :
    (res.1 = SNAPSHOT_OK ∧ eventCount w' = eventCount w + 1) ∨
    (res.1 ≠ SNAPSHOT_OK ∧ w' = w) := by
  unfold lvm_snapshot_remove at h
  cases hs : lvm_is_snapshot w vg_name snapshot_name with
  | error e => simp [hs] at h
  | ok p =>
    obtain ⟨rc, b⟩ := p
    simp only [hs] at h
    by_cases hrc : rc = SNAPSHOT_OK
    · subst hrc
      simp only [ne_eq, not_true_eq_false, if_false, ite_false] at h
      cases hb : b with
      | false =>
        simp only [hb, Bool.not_false, if_true, ite_true] at h
        simp only [Except.ok.injEq, Prod.mk.injEq] at h
        obtain ⟨h1, h2⟩ := h
        subst h1
        subst h2
        right
        exact ⟨(by decide : ERROR_REMOVE_FAILED_NOT_SNAPSHOT ≠ SNAPSHOT_OK), rfl⟩
      | true =>
        simp only [hb, Bool.not_true, Bool.false_eq_true, if_false, ite_false] at h
        simp only [Except.ok.injEq, Prod.mk.injEq] at h
        obtain ⟨h1, h2⟩ := h
        subst h1
        subst h2
        left
        exact ⟨rfl, by simp [run_lvremove, eventCount]⟩
    · rw [if_pos (by simp [hrc])] at h
      simp at h

lemma revert_lv_apply {w : World} {vg_name snapshot_name : String}
    {res : Nat × String} {w' : World}
    (h : revert_lv w vg_name snapshot_name false = .ok (res, w')) :
    (res.1 = SNAPSHOT_OK ∧ eventCount w' = eventCount w + 1) ∨
    (res.1 ≠ SNAPSHOT_OK ∧ w' = w) := by
  unfold revert_lv at h
  simp only [lvm_lv_exists_fst, ne_eq, not_true_eq_false, if_false, ite_false] at h
  cases hex : (lvm_lv_exists w vg_name snapshot_name).2.2 with
  | false =>
    simp only [hex, Bool.false_eq_true, if_false, ite_false] at h
    simp only [Except.ok.injEq, Prod.mk.injEq] at h
    obtain ⟨h1, h2⟩ := h
    subst h1
    subst h2
    right
    exact ⟨(by decide : ERROR_LV_NOTFOUND ≠ SNAPSHOT_OK), rfl⟩
  | true =>
    simp only [hex, if_true, ite_true] at h
    cases hs : lvm_is_snapshot w vg_name snapshot_name with
    | error e => simp [hs] at h
    | ok p =>
      obtain ⟨rc, b⟩ := p
      simp only [hs] at h
      by_cases hrc : rc = SNAPSHOT_OK
      · subst hrc
        simp only [ne_eq, not_true_eq_false, if_false, ite_false] at h
        cases hb : b with
        | false =>
          simp only [hb, Bool.not_false, if_true, ite_true] at h
          simp only [Except.ok.injEq, Prod.mk.injEq] at h
          obtain ⟨h1, h2⟩ := h
          subst h1
          subst h2
          right
          exact ⟨(by decide : ERROR_REVERT_FAILED ≠ SNAPSHOT_OK), rfl⟩
        | true =>
          simp only [hb, Bool.not_true, Bool.false_eq_true, if_false, ite_false] at h
          simp only [Except.ok.injEq, Prod.mk.injEq] at h
          obtain ⟨h1, h2⟩ := h
          subst h1
          subst h2
          left
          exact ⟨rfl, by simp [run_lvconvert_merge, eventCount]⟩
      · rw [if_pos (by simp [hrc])] at h
        simp only [Except.ok.injEq, Prod.mk.injEq] at h
        obtain ⟨h1, h2⟩ := h
        subst h1
        subst h2
        right
        exact ⟨(by decide : ERROR_VERIFY_COMMAND_FAILED ≠ SNAPSHOT_OK), rfl⟩

lemma changed_iff_self {ch : Bool} {n : Nat} : ch = true ↔ (ch = true ∨ n < n) := by
  constructor
  · exact Or.inl
  · rintro (hh | hh)
    · exact hh
    · exact absurd hh (Nat.lt_irrefl _)

lemma loop_progress_iff {r ch : Bool} {a b c : Nat} (hc : b = a + 1) (hle : b ≤ c)
    (hr : r = true) : a ≤ c ∧ (r = true ↔ (ch = true ∨ a < c)) := by
  refine ⟨by omega, ?_⟩
  constructor
  · intro _
    right
    omega
  · intro _
    exact hr

/-- C1 helper: through the removal loop in apply mode, `changed` ends true
iff it started true or the event log grew. -/
lemma remove_loop_changed {suffix : String} :
    ∀ (items : List VolSpec) (w : World) (ch : Bool) (r : Nat × String × Bool) (w' : World),
      remove_loop suffix false items w ch = .ok (r, w') →
      eventCount w ≤ eventCount w' ∧
      (r.2.2 = true ↔ (ch = true ∨ eventCount w < eventCount w')) := by
  intro items
  induction items with
  | nil =>
    intro w ch r w' h
    unfold remove_loop at h
    simp only [Except.ok.injEq, Prod.mk.injEq] at h
    obtain ⟨h1, h2⟩ := h
    subst h1
    subst h2
    exact ⟨Nat.le_refl _, changed_iff_self⟩
  | cons v rest ih =>
    intro w ch r w' h
    unfold remove_loop at h
    simp only [lvm_lv_exists_fst, ne_eq, not_true_eq_false, if_false, ite_false] at h
    split at h
    · exact ih w ch r w' h
    · cases hs : lvm_snapshot_remove w v.vg (get_snapshot_name v.lv suffix) false with
      | error e => simp [hs] at h
      | ok q =>
        obtain ⟨⟨rc2, msg2⟩, w2⟩ := q
        simp only [hs] at h
        by_cases hrc : rc2 = SNAPSHOT_OK
        · rw [if_neg (by simp [hrc])] at h
          rcases lvm_snapshot_remove_apply hs with ⟨_, hcount⟩ | ⟨hne, _⟩
          · have hih := ih w2 true r w' h
            exact loop_progress_iff hcount hih.1 (hih.2.mpr (Or.inl rfl))
          · exact absurd hrc hne
        · rw [if_pos (by simp [hrc])] at h
          simp only [Except.ok.injEq, Prod.mk.injEq] at h
          obtain ⟨h1, h2⟩ := h
          subst h1
          subst h2
          rcases lvm_snapshot_remove_apply hs with ⟨heq, _⟩ | ⟨_, hw⟩
          · exact absurd heq hrc
          · subst hw
            exact ⟨Nat.le_refl _, changed_iff_self⟩

/-- C1 helper: same accounting through the revert loop in apply mode. -/
lemma revert_loop_changed {suffix : String} :
    ∀ (items : List VolSpec) (w : World) (ch : Bool) (r : Nat × String × Bool) (w' : World),
      revert_loop suffix false items w ch = .ok (r, w') →
      eventCount w ≤ eventCount w' ∧
      (r.2.2 = true ↔ (ch = true ∨ eventCount w < eventCount w')) := by
  intro items
  induction items with
  | nil =>
    intro w ch r w' h
    unfold revert_loop at h
    simp only [Except.ok.injEq, Prod.mk.injEq] at h
    obtain ⟨h1, h2⟩ := h
    subst h1
    subst h2
    exact ⟨Nat.le_refl _, changed_iff_self⟩
  | cons v rest ih =>
    intro w ch r w' h
    unfold revert_loop at h
    cases hs : revert_lv w v.vg (get_snapshot_name v.lv suffix) false with
    | error e => simp [hs] at h
    | ok q =>
      obtain ⟨⟨rc2, msg2⟩, w2⟩ := q
      simp only [hs] at h
      by_cases hrc : rc2 = SNAPSHOT_OK
      · rw [if_neg (by simp [hrc])] at h
        rcases revert_lv_apply hs with ⟨_, hcount⟩ | ⟨hne, _⟩
        · have hih := ih w2 true r w' h
          exact loop_progress_iff hcount hih.1 (hih.2.mpr (Or.inl rfl))
        · exact absurd hrc hne
      · rw [if_pos (by simp [hrc])] at h
        simp only [Except.ok.injEq, Prod.mk.injEq] at h
        obtain ⟨h1, h2⟩ := h
        subst h1
        subst h2
        rcases revert_lv_apply hs with ⟨heq, _⟩ | ⟨_, hw⟩
        · exact absurd heq hrc
        · subst hw
          exact ⟨Nat.le_refl _, changed_iff_self⟩

/-- C1 helper: same accounting through the creation loop in apply mode. -/
lemma snapshot_create_loop_changed {suffix : String} {sd : SpaceState} :
    ∀ (items : List VolSpec) (w : World) (ch : Bool) (r : Nat × String × Bool) (w' : World),
      snapshot_create_loop suffix sd false items w ch = .ok (r, w') →
      eventCount w ≤ eventCount w' ∧
      (r.2.2 = true ↔ (ch = true ∨ eventCount w < eventCount w')) := by
  intro items
  induction items with
  | nil =>
    intro w ch r w' h
    unfold snapshot_create_loop at h
    simp only [Except.ok.injEq, Prod.mk.injEq] at h
    obtain ⟨h1, h2⟩ := h
    subst h1
    subst h2
    exact ⟨Nat.le_refl _, changed_iff_self⟩
  | cons v rest ih =>
    intro w ch r w' h
    unfold snapshot_create_loop at h
    cases hg : get_space_needed v.vg v.lv v.percent_space_required sd with
    | error e => simp [hg] at h
    | ok required =>
      simp only [hg] at h
      cases hs : snapshot_lv w v.vg v.lv suffix required false with
      | error e => simp [hs] at h
      | ok q =>
        obtain ⟨⟨rc2, msg2⟩, w2⟩ := q
        simp only [hs] at h
        by_cases hrc : rc2 = SNAPSHOT_OK
        · rw [if_neg (by simp [hrc])] at h
          rcases snapshot_lv_apply hs with ⟨_, hcount⟩ | ⟨hne, _⟩
          · have hih := ih w2 true r w' h
            exact loop_progress_iff hcount hih.1 (hih.2.mpr (Or.inl rfl))
          · exact absurd hrc hne
        · rw [if_pos (by simp [hrc])] at h
          simp only [Except.ok.injEq, Prod.mk.injEq] at h
          obtain ⟨h1, h2⟩ := h
          subst h1
          subst h2
          rcases snapshot_lv_apply hs with ⟨heq, _⟩ | ⟨_, hw⟩
          · exact absurd heq hrc
          · subst hw
            exact ⟨Nat.le_refl _, changed_iff_self⟩

/-- C1 helper: in apply mode `remove_snapshot_set`'s changed flag is true
iff the event log grew. -/
lemma remove_changed_iff {w : World} {ss : Snapset} {r : Nat × String × Bool} {w' : World}
    (h : remove_snapshot_set w ss false = .ok (r, w')) :
    r.2.2 = true ↔ eventCount w < eventCount w' := by
  unfold remove_snapshot_set at h
  cases hp : remove_precheck_loop w ss.name ss.volumes with
  | error e => simp [hp] at h
  | ok o =>
    cases o with
    | some p =>
      simp only [hp] at h
      simp only [Except.ok.injEq, Prod.mk.injEq] at h
      obtain ⟨h1, h2⟩ := h
      subst h1
      subst h2
      simp
    | none =>
      simp only [hp] at h
      obtain ⟨hle, hiff⟩ := remove_loop_changed ss.volumes w false r w' h
      constructor
      · intro hr
        rcases hiff.mp hr with hc | hc
        · exact absurd hc (by simp)
        · exact hc
      · intro hlt
        exact hiff.mpr (Or.inr hlt)

/-- C1 helper: in apply mode `revert_snapshot_set`'s changed flag is true
iff the event log grew. -/
lemma revert_changed_iff {w : World} {ss : Snapset} {r : Nat × String × Bool} {w' : World}
    (h : revert_snapshot_set w ss false = .ok (r, w')) :
    r.2.2 = true ↔ eventCount w < eventCount w' := by
  unfold revert_snapshot_set at h
  obtain ⟨hle, hiff⟩ := revert_loop_changed ss.volumes w false r w' h
  constructor
  · intro hr
    rcases hiff.mp hr with hc | hc
    · exact absurd hc (by simp)
    · exact hc
  · intro hlt
    exact hiff.mpr (Or.inr hlt)

/-- C1 helper: in apply mode `snapshot_create_set`'s changed flag is true
iff the event log grew. -/
lemma create_changed_iff {w : World} {ss : Snapset} {r : Nat × String × Bool} {w' : World}
    (h : snapshot_create_set w ss false = .ok (r, w')) :
    r.2.2 = true ↔ eventCount w < eventCount w' := by
  unfold snapshot_create_set at h
  cases hp : snapshot_precheck_lv_set w ss with
  | error e => simp [hp] at h
  | ok t =>
    obtain ⟨rc, msg, sdOpt⟩ := t
    simp only [hp] at h
    by_cases hrc : rc = SNAPSHOT_OK
    · rw [if_neg (by simp [hrc])] at h
      cases sdOpt with
      | none => simp at h
      | some sd =>
        obtain ⟨hle, hiff⟩ := snapshot_create_loop_changed ss.volumes w false r w' h
        constructor
        · intro hr
          rcases hiff.mp hr with hc | hc
          · exact absurd hc (by simp)
          · exact hc
        · intro hlt
          exact hiff.mpr (Or.inr hlt)
    · rw [if_pos (by simp [hrc])] at h
      simp only [Except.ok.injEq, Prod.mk.injEq] at h
      obtain ⟨h1, h2⟩ := h
      subst h1
      subst h2
      simp

lemma get_current_space_state_fst (w : World) : (get_current_space_state w).1 = SNAPSHOT_OK :=
  rfl

lemma extend_lv_snapshot_apply {w : World} {vg_name lv_name suffix : String} {p : Nat}
    {res : Nat × String × Bool} {w' : World}
    (h : extend_lv_snapshot w vg_name lv_name suffix p false = .ok (res, w')) :
    (res.2.2 = true ∧ res.1 = SNAPSHOT_OK ∧ eventCount w' = eventCount w + 1) ∨
    (res.2.2 = false ∧ w' = w) := by
  unfold extend_lv_snapshot at h
  cases hex : (lvm_lv_exists w vg_name (get_snapshot_name lv_name suffix)).2.2 with
  | false =>
    simp only [hex, Bool.false_eq_true, if_false, ite_false] at h
    simp only [Except.ok.injEq, Prod.mk.injEq] at h
    obtain ⟨h1, h2⟩ := h
    subst h1
    subst h2
    right
    exact ⟨rfl, rfl⟩
  | true =>
    simp only [hex, if_true, ite_true] at h
    cases hs : lvm_is_snapshot w vg_name (get_snapshot_name lv_name suffix) with
    | error e => simp [hs] at h
    | ok q =>
      obtain ⟨rc, b⟩ := q
      simp only [hs] at h
      by_cases hrc : rc = SNAPSHOT_OK
      · subst hrc
        simp only [ne_eq, not_true_eq_false, if_false, ite_false] at h
        cases hb : b with
        | false =>
          simp only [hb, Bool.not_false, if_true, ite_true] at h
          simp only [Except.ok.injEq, Prod.mk.injEq] at h
          obtain ⟨h1, h2⟩ := h
          subst h1
          subst h2
          right
          exact ⟨rfl, rfl⟩
        | true =>
          simp only [hb, Bool.not_true, Bool.false_eq_true, if_false, ite_false] at h
          simp only [get_current_space_state_fst, ne_eq, not_true_eq_false, if_false,
                     ite_false] at h
          cases hd1 : dictGet (get_current_space_state w).2.2.vgs vg_name with
          | none => simp [hd1] at h
          | some vgstate =>
            simp only [hd1] at h
            cases hd2 : dictGet (get_current_space_state w).2.2.lvs_shared
                (get_snapshot_name lv_name suffix) with
            | none => simp [hd2] at h
            | some snapstate =>
              simp only [hd2] at h
              cases hg : get_space_needed vg_name lv_name p (get_current_space_state w).2.2 with
              | error e => simp [hg] at h
              | ok required =>
                simp only [hg] at h
                by_cases hsz : snapstate.lv_size ≥ required
                · rw [if_pos hsz] at h
                  simp only [Except.ok.injEq, Prod.mk.injEq] at h
                  obtain ⟨h1, h2⟩ := h
                  subst h1
                  subst h2
                  right
                  exact ⟨rfl, rfl⟩
                · rw [if_neg hsz] at h
                  simp only [Bool.false_eq_true, if_false, ite_false, Except.ok.injEq,
                             Prod.mk.injEq] at h
                  obtain ⟨h1, h2⟩ := h
                  subst h1
                  subst h2
                  left
                  exact ⟨rfl, rfl, by simp [run_lvextend, eventCount]⟩
      · rw [if_pos (by simp [hrc])] at h
        simp only [Except.ok.injEq, Prod.mk.injEq] at h
        obtain ⟨h1, h2⟩ := h
        subst h1
        subst h2
        right
        exact ⟨rfl, rfl⟩

/-- C1 helper: changed accounting through the extend loop in apply mode. -/
lemma extend_set_loop_changed {suffix : String} :
    ∀ (items : List VolSpec) (w : World) (ch : Bool) (r : Nat × String × Bool) (w' : World),
      extend_set_loop suffix false items w ch = .ok (r, w') →
      eventCount w ≤ eventCount w' ∧
      (r.2.2 = true ↔ (ch = true ∨ eventCount w < eventCount w')) := by
  intro items
  induction items with
  | nil =>
    intro w ch r w' h
    unfold extend_set_loop at h
    simp only [Except.ok.injEq, Prod.mk.injEq] at h
    obtain ⟨h1, h2⟩ := h
    subst h1
    subst h2
    exact ⟨Nat.le_refl _, changed_iff_self⟩
  | cons v rest ih =>
    intro w ch r w' h
    unfold extend_set_loop at h
    cases hs : extend_lv_snapshot w v.vg v.lv suffix v.percent_space_required false with
    | error e => simp [hs] at h
    | ok q =>
      obtain ⟨⟨rc2, msg2, cmd2⟩, w2⟩ := q
      simp only [hs] at h
      have hstep := extend_lv_snapshot_apply hs
      dsimp only at hstep
      by_cases hrc : rc2 = SNAPSHOT_OK
      · rw [if_neg (by simp [hrc])] at h
        rcases hstep with ⟨hcmd, _, hcount⟩ | ⟨hcmd, hw⟩
        · rw [hcmd, Bool.or_true] at h
          have hih := ih w2 true r w' h
          exact loop_progress_iff hcount hih.1 (hih.2.mpr (Or.inl rfl))
        · rw [hcmd, Bool.or_false] at h
          rw [hw] at h
          exact ih w ch r w' h
      · rw [if_pos (by simp [hrc])] at h
        rcases hstep with ⟨_, hrcok, _⟩ | ⟨hcmd, hw⟩
        · exact absurd hrcok hrc
        · subst hw
          simp only [Except.ok.injEq, Prod.mk.injEq] at h
          obtain ⟨h1, h2⟩ := h
          subst h1
          subst h2
          refine ⟨Nat.le_refl _, ?_⟩
          rw [hcmd, Bool.or_false]
          exact changed_iff_self

/-- C1 helper: in apply mode `extend_snapshot_set`'s changed flag is true
iff the event log grew. -/
lemma extend_changed_iff {w : World} {ss : Snapset} {r : Nat × String × Bool} {w' : World}
    (h : extend_snapshot_set w ss false = .ok (r, w')) :
    r.2.2 = true ↔ eventCount w < eventCount w' := by
  unfold extend_snapshot_set at h
  obtain ⟨hle, hiff⟩ := extend_set_loop_changed ss.volumes w false r w' h
  constructor
  · intro hr
    rcases hiff.mp hr with hc | hc
    · exact absurd hc (by simp)
    · exact hc
  · intro hlt
    exact hiff.mpr (Or.inr hlt)

lemma mount_attempt_apply {w : World} {bd mp : String} {res : Nat × String × Bool}
    {w' : World} (h : mount_attempt w bd mp false = (res, w')) :
    (res.2.2 = true ∧ res.1 = SNAPSHOT_OK ∧ eventCount w' = eventCount w + 1) ∨
    (res.2.2 = false ∧ w' = w) := by
  unfold mount_attempt mount_helper at h
  by_cases hmnt : w.mounts.any (fun p => p.1 == bd && p.2 == mp) = true
  · simp only [hmnt, if_true, ite_true,
      (show (ERROR_MOUNT_POINT_ALREADY_MOUNTED == SNAPSHOT_OK) = false from by decide),
      (show (ERROR_MOUNT_POINT_ALREADY_MOUNTED = ERROR_MOUNT_POINT_ALREADY_MOUNTED) = True
        from by simp),
      Prod.mk.injEq] at h
    obtain ⟨h1, h2⟩ := h
    subst h1
    subst h2
    right
    exact ⟨rfl, rfl⟩
  · rw [Bool.not_eq_true] at hmnt
    simp only [hmnt, Bool.false_eq_true, if_false, ite_false,
      (show (SNAPSHOT_OK == SNAPSHOT_OK) = true from by decide),
      (show ¬(SNAPSHOT_OK = ERROR_MOUNT_POINT_ALREADY_MOUNTED) from by decide),
      Prod.mk.injEq] at h
    obtain ⟨h1, h2⟩ := h
    subst h1
    subst h2
    left
    exact ⟨rfl, rfl, by simp [eventCount]⟩

lemma umount_attempt_apply {w : World} {target : String} {at_ : Bool}
    {res : Nat × String × Bool} {w' : World}
    (h : umount_attempt w target at_ false = (res, w')) :
    (res.2.2 = true ∧ res.1 = SNAPSHOT_OK ∧ eventCount w' = eventCount w + 1) ∨
    (res.2.2 = false ∧ w' = w) := by
  unfold umount_attempt umount_helper at h
  by_cases hm : (w.mounts.filter (fun p => p.1 == target || p.2 == target)).isEmpty = true
  · simp only [hm, if_true, ite_true,
      (show (ERROR_UMOUNT_NOT_MOUNTED == SNAPSHOT_OK) = false from by decide),
      (show (ERROR_UMOUNT_NOT_MOUNTED = ERROR_UMOUNT_NOT_MOUNTED) = True from by simp),
      Prod.mk.injEq] at h
    obtain ⟨h1, h2⟩ := h
    subst h1
    subst h2
    right
    exact ⟨rfl, rfl⟩
  · rw [Bool.not_eq_true] at hm
    simp only [hm, Bool.false_eq_true, if_false, ite_false,
      (show (SNAPSHOT_OK == SNAPSHOT_OK) = true from by decide),
      (show ¬(SNAPSHOT_OK = ERROR_UMOUNT_NOT_MOUNTED) from by decide),
      Prod.mk.injEq] at h
    obtain ⟨h1, h2⟩ := h
    subst h1
    subst h2
    left
    exact ⟨rfl, rfl, by simp [eventCount]⟩

lemma mount_lv_apply {w : World} {create origin : Bool}
    {mountpoint fstype blockdev options vg_name lv_name snapset_name : String}
    {res : Nat × String × Bool} {w' : World}
    (h : mount_lv w create origin mountpoint fstype blockdev options vg_name lv_name
           snapset_name false = .ok (res, w')) :
    (res.2.2 = true ∧ res.1 = SNAPSHOT_OK ∧ eventCount w' = eventCount w + 1) ∨
    (res.2.2 = false ∧ w' = w) := by
  unfold mount_lv at h
  split at h
  · simp only [Except.ok.injEq, Prod.mk.injEq] at h
    obtain ⟨h1, h2⟩ := h
    subst h1
    subst h2
    right
    exact ⟨rfl, rfl⟩
  · split at h
    · by_cases hrv : (verify_source_lvs_exist w vg_name
          (mount_source_lv origin lv_name snapset_name)).1 = SNAPSHOT_OK
      · rw [if_neg (by simp [hrv])] at h
        simp only [Except.ok.injEq] at h
        exact mount_attempt_apply h
      · rw [if_pos (by simp [hrv])] at h
        simp only [Except.ok.injEq, Prod.mk.injEq] at h
        obtain ⟨h1, h2⟩ := h
        subst h1
        subst h2
        right
        exact ⟨rfl, rfl⟩
    · simp at h

lemma umount_lv_apply {w : World} {target vg_name lv_name : String} {at_ : Bool}
    {res : Nat × String × Bool} {w' : World}
    (h : umount_lv w target vg_name lv_name at_ false = (res, w')) :
    (res.2.2 = true ∧ res.1 = SNAPSHOT_OK ∧ eventCount w' = eventCount w + 1) ∨
    (res.2.2 = false ∧ w' = w) := by
  unfold umount_lv at h
  split at h
  · by_cases hrv : (verify_source_lvs_exist w vg_name lv_name).1 = SNAPSHOT_OK
    · rw [if_neg (by simp [hrv])] at h
      exact umount_attempt_apply h
    · rw [if_pos (by simp [hrv])] at h
      simp only [Prod.mk.injEq] at h
      obtain ⟨h1, h2⟩ := h
      subst h1
      subst h2
      right
      exact ⟨rfl, rfl⟩
  · exact umount_attempt_apply h

lemma mount_set_step_apply {w : World} {suffix : String} {mc : Bool} {v : VolSpec}
    {mp : String} {res : Nat × String × Bool} {w' : World}
    (h : mount_set_step w suffix mc false v mp = .ok (res, w')) :
    (res.2.2 = true ∧ res.1 = SNAPSHOT_OK ∧ eventCount w' = eventCount w + 1) ∨
    (res.2.2 = false ∧ w' = w) := by
  unfold mount_set_step at h
  exact mount_lv_apply h

lemma umount_set_step_apply {w : World} {suffix : String} {v : VolSpec}
    {mp : String} {res : Nat × String × Bool} {w' : World}
    (h : umount_set_step w suffix false v mp = (res, w')) :
    (res.2.2 = true ∧ res.1 = SNAPSHOT_OK ∧ eventCount w' = eventCount w + 1) ∨
    (res.2.2 = false ∧ w' = w) := by
  unfold umount_set_step at h
  exact umount_lv_apply h

/-- C1 helper: changed accounting through the mount loop in apply mode. -/
lemma mount_set_loop_changed {w0 : World} {suffix : String} {mc : Bool} :
    ∀ (items : List VolSpec) (w : World) (ch : Bool) (r : Nat × String × Bool) (w' : World),
      mount_set_loop w0 suffix false mc false items w ch = .ok (r, w') →
      eventCount w ≤ eventCount w' ∧
      (r.2.2 = true ↔ (ch = true ∨ eventCount w < eventCount w')) := by
  intro items
  induction items with
  | nil =>
    intro w ch r w' h
    unfold mount_set_loop at h
    simp only [Except.ok.injEq, Prod.mk.injEq] at h
    obtain ⟨h1, h2⟩ := h
    subst h1
    subst h2
    exact ⟨Nat.le_refl _, changed_iff_self⟩
  | cons v rest ih =>
    intro w ch r w' h
    unfold mount_set_loop at h
    cases hmp : v.mountpoint with
    | none =>
      simp only [hmp, Except.ok.injEq, Prod.mk.injEq] at h
      obtain ⟨h1, h2⟩ := h
      subst h1
      subst h2
      exact ⟨Nat.le_refl _, changed_iff_self⟩
    | some mp =>
      simp only [hmp, Bool.false_eq_true, if_false, ite_false] at h
      cases hs : mount_set_step w suffix mc false v mp with
      | error e => simp [hs] at h
      | ok q =>
        obtain ⟨⟨rc2, msg2, cmd2⟩, w2⟩ := q
        simp only [hs] at h
        have hstep := mount_set_step_apply hs
        dsimp only at hstep
        by_cases hrc : rc2 = SNAPSHOT_OK
        · rw [if_neg (by simp [hrc])] at h
          rcases hstep with ⟨hcmd, _, hcount⟩ | ⟨hcmd, hw⟩
          · rw [hcmd, Bool.or_true] at h
            have hih := ih w2 true r w' h
            exact loop_progress_iff hcount hih.1 (hih.2.mpr (Or.inl rfl))
          · rw [hcmd, Bool.or_false] at h
            rw [hw] at h
            exact ih w ch r w' h
        · rw [if_pos (by simp [hrc])] at h
          rcases hstep with ⟨_, hrcok, _⟩ | ⟨hcmd, hw⟩
          · exact absurd hrcok hrc
          · subst hw
            simp only [Except.ok.injEq, Prod.mk.injEq] at h
            obtain ⟨h1, h2⟩ := h
            subst h1
            subst h2
            refine ⟨Nat.le_refl _, ?_⟩
            rw [hcmd, Bool.or_false]
            exact changed_iff_self

/-- C1 helper: changed accounting through the unmount loop in apply
mode. -/
lemma umount_set_loop_changed {w0 : World} {suffix : String} :
    ∀ (items : List VolSpec) (w : World) (ch : Bool) (r : Nat × String × Bool) (w' : World),
      umount_set_loop w0 suffix false false items w ch = .ok (r, w') →
      eventCount w ≤ eventCount w' ∧
      (r.2.2 = true ↔ (ch = true ∨ eventCount w < eventCount w')) := by
  intro items
  induction items with
  | nil =>
    intro w ch r w' h
    unfold umount_set_loop at h
    simp only [Except.ok.injEq, Prod.mk.injEq] at h
    obtain ⟨h1, h2⟩ := h
    subst h1
    subst h2
    exact ⟨Nat.le_refl _, changed_iff_self⟩
  | cons v rest ih =>
    intro w ch r w' h
    unfold umount_set_loop at h
    cases hmp : v.mountpoint with
    | none => simp [hmp] at h
    | some mp =>
      simp only [hmp, Bool.false_eq_true, if_false, ite_false] at h
      rcases hq : umount_set_step w suffix false v mp with ⟨⟨rc2, msg2, cmd2⟩, w2⟩
      simp only [hq] at h
      have hstep := umount_set_step_apply hq
      dsimp only at hstep
      by_cases hrc : rc2 = SNAPSHOT_OK
      · rw [if_neg (by simp [hrc])] at h
        rcases hstep with ⟨hcmd, _, hcount⟩ | ⟨hcmd, hw⟩
        · rw [hcmd, Bool.or_true] at h
          have hih := ih w2 true r w' h
          exact loop_progress_iff hcount hih.1 (hih.2.mpr (Or.inl rfl))
        · rw [hcmd, Bool.or_false] at h
          rw [hw] at h
          exact ih w ch r w' h
      · rw [if_pos (by simp [hrc])] at h
        rcases hstep with ⟨_, hrcok, _⟩ | ⟨hcmd, hw⟩
        · exact absurd hrcok hrc
        · subst hw
          simp only [Except.ok.injEq, Prod.mk.injEq] at h
          obtain ⟨h1, h2⟩ := h
          subst h1
          subst h2
          refine ⟨Nat.le_refl _, ?_⟩
          rw [hcmd, Bool.or_false]
          exact changed_iff_self

/-- C1 helper: in apply mode `mount_snapshot_set`'s changed flag is true
iff the event log grew. -/
lemma mount_changed_iff {w : World} {ss : Snapset} {mc : Bool}
    {r : Nat × String × Bool} {w' : World}
    (h : mount_snapshot_set w ss false mc false = .ok (r, w')) :
    r.2.2 = true ↔ eventCount w < eventCount w' := by
  unfold mount_snapshot_set at h
  obtain ⟨hle, hiff⟩ := mount_set_loop_changed ss.volumes w false r w' h
  constructor
  · intro hr
    rcases hiff.mp hr with hc | hc
    · exact absurd hc (by simp)
    · exact hc
  · intro hlt
    exact hiff.mpr (Or.inr hlt)

/-- C1 helper: in apply mode `umount_snapshot_set`'s changed flag is true
iff the event log grew. -/
lemma umount_changed_iff {w : World} {ss : Snapset}
    {r : Nat × String × Bool} {w' : World}
    (h : umount_snapshot_set w ss false false = .ok (r, w')) :
    r.2.2 = true ↔ eventCount w < eventCount w' := by
  unfold umount_snapshot_set at h
  obtain ⟨hle, hiff⟩ := umount_set_loop_changed ss.volumes w false r w' h
  constructor
  · intro hr
    rcases hiff.mp hr with hc | hc
    · exact absurd hc (by simp)
    · exact hc
  · intro hlt
    exact hiff.mpr (Or.inr hlt)

/-- C1 helper: the verify-only mount loop never sets `changed`. -/
lemma mount_set_loop_verify {w0 : World} {suffix : String} {mc cm : Bool} :
    ∀ (items : List VolSpec) (w : World) (ch : Bool) (r : Nat × String × Bool) (w' : World),
      mount_set_loop w0 suffix true mc cm items w ch = .ok (r, w') → r.2.2 = ch := by
  intro items
  induction items with
  | nil =>
    intro w ch r w' h
    unfold mount_set_loop at h
    simp only [Except.ok.injEq, Prod.mk.injEq] at h
    obtain ⟨h1, h2⟩ := h
    subst h1
    rfl
  | cons v rest ih =>
    intro w ch r w' h
    unfold mount_set_loop at h
    cases hmp : v.mountpoint with
    | none =>
      simp only [hmp, Except.ok.injEq, Prod.mk.injEq] at h
      obtain ⟨h1, h2⟩ := h
      subst h1
      rfl
    | some mp =>
      simp only [hmp, if_true, ite_true] at h
      by_cases hmv : (mount_verify w (v.mount_origin.getD false) mp
          ("/dev/" ++ v.vg ++ "/" ++ mount_lv_to_check suffix v) v.vg v.lv suffix).1
          = SNAPSHOT_OK
      · rw [if_neg (by simp [hmv])] at h
        exact ih w ch r w' h
      · rw [if_pos (by simp [hmv])] at h
        simp only [Except.ok.injEq, Prod.mk.injEq] at h
        obtain ⟨h1, h2⟩ := h
        subst h1
        rfl

/-- C1 helper: the verify-only unmount loop never sets `changed`. -/
lemma umount_set_loop_verify {w0 : World} {suffix : String} {cm : Bool} :
    ∀ (items : List VolSpec) (w : World) (ch : Bool) (r : Nat × String × Bool) (w' : World),
      umount_set_loop w0 suffix true cm items w ch = .ok (r, w') → r.2.2 = ch := by
  intro items
  induction items with
  | nil =>
    intro w ch r w' h
    unfold umount_set_loop at h
    simp only [Except.ok.injEq, Prod.mk.injEq] at h
    obtain ⟨h1, h2⟩ := h
    subst h1
    rfl
  | cons v rest ih =>
    intro w ch r w' h
    unfold umount_set_loop at h
    cases hmp : v.mountpoint with
    | none => simp [hmp] at h
    | some mp =>
      simp only [hmp, if_true, ite_true] at h
      by_cases hmv : (umount_verify w mp v.vg (umount_lv_to_check suffix v)).1 = SNAPSHOT_OK
      · rw [if_neg (by simp [hmv])] at h
        exact ih w ch r w' h
      · rw [if_pos (by simp [hmv])] at h
        simp only [Except.ok.injEq, Prod.mk.injEq] at h
        obtain ⟨h1, h2⟩ := h
        subst h1
        rfl

/-- C1 (counterexample): in dry-run (check) mode, creating a fully
creatable set reports `changed = true` even though no mutating external
action was taken (the event log stays empty), refuting the claim that
dry-run returns `changed = false`. -/
theorem dry_run_create_reports_changed :
    snapshot_create_set Wbase SSbase true = .ok ((SNAPSHOT_OK, "", true), Wbase) ∧
    Wbase.events = [] :=
  ⟨rfl, rfl⟩

/-- C1 (corrected): for the six set operations in apply mode (dry run
off, verify off) the returned changed flag is true iff at least one
mutating external command was actually executed (the event log grew); and
the check/remove/revert/extend/mount/unmount command entry points in
verify-only mode return `changed = false`.  (In dry-run mode
`changed = false` is NOT guaranteed: see the counterexample.) -/
theorem changed_flag_contract_amended :
    (∀ (w : World) (ss : Snapset) (r : Nat × String × Bool) (w' : World),
       snapshot_create_set w ss false = .ok (r, w') →
       (r.2.2 = true ↔ eventCount w < eventCount w')) ∧
    (∀ (w : World) (ss : Snapset) (r : Nat × String × Bool) (w' : World),
       remove_snapshot_set w ss false = .ok (r, w') →
       (r.2.2 = true ↔ eventCount w < eventCount w')) ∧
    (∀ (w : World) (ss : Snapset) (r : Nat × String × Bool) (w' : World),
       revert_snapshot_set w ss false = .ok (r, w') →
       (r.2.2 = true ↔ eventCount w < eventCount w')) ∧
    (∀ (w : World) (ss : Snapset) (r : Nat × String × Bool) (w' : World),
       extend_snapshot_set w ss false = .ok (r, w') →
       (r.2.2 = true ↔ eventCount w < eventCount w')) ∧
    (∀ (w : World) (ss : Snapset) (mc : Bool) (r : Nat × String × Bool) (w' : World),
       mount_snapshot_set w ss false mc false = .ok (r, w') →
       (r.2.2 = true ↔ eventCount w < eventCount w')) ∧
    (∀ (w : World) (ss : Snapset) (r : Nat × String × Bool) (w' : World),
       umount_snapshot_set w ss false false = .ok (r, w') →
       (r.2.2 = true ↔ eventCount w < eventCount w')) ∧
    (∀ (w : World) (args : ModuleArgs) (ss : Snapset) (res : CmdResult) (w' : World),
       check_cmd w args ss = .ok (res, w') → res.changed = false) ∧
    (∀ (w : World) (args : ModuleArgs) (ss : Snapset) (res : CmdResult) (w' : World),
       args.snapshot_lvm_verify_only = true →
       remove_cmd w args ss = .ok (res, w') → res.changed = false) ∧
    (∀ (w : World) (args : ModuleArgs) (ss : Snapset) (res : CmdResult) (w' : World),
       args.snapshot_lvm_verify_only = true →
       revert_cmd w args ss = .ok (res, w') → res.changed = false) ∧
    (∀ (w : World) (args : ModuleArgs) (ss : Snapset) (res : CmdResult) (w' : World),
       args.snapshot_lvm_verify_only = true →
       extend_cmd w args ss = .ok (res, w') → res.changed = false) ∧
    (∀ (w : World) (args : ModuleArgs) (ss : Snapset) (res : CmdResult) (w' : World),
       args.snapshot_lvm_verify_only = true →
       mount_cmd w args ss = .ok (res, w') → res.changed = false) ∧
    (∀ (w : World) (args : ModuleArgs) (ss : Snapset) (res : CmdResult) (w' : World),
       args.snapshot_lvm_verify_only = true →
       umount_cmd w args ss = .ok (res, w') → res.changed = false) := by
  refine ⟨?_, ?_, ?_, ?_, ?_, ?_, ?_, ?_, ?_, ?_, ?_, ?_⟩
  · intro w ss r w' h
    exact create_changed_iff h
  · intro w ss r w' h
    exact remove_changed_iff h
  · intro w ss r w' h
    exact revert_changed_iff h
  · intro w ss r w' h
    exact extend_changed_iff h
  · intro w ss mc r w' h
    exact mount_changed_iff h
  · intro w ss r w' h
    exact umount_changed_iff h
  · intro w args ss res w' h
    unfold check_cmd at h
    split at h
    · cases hv : check_verify_lvs_set w ss with
      | error e => simp [hv] at h
      | ok p =>
        obtain ⟨rc, m⟩ := p
        simp only [hv, Except.ok.injEq, Prod.mk.injEq] at h
        obtain ⟨h1, h2⟩ := h
        subst h1
        rfl
    · cases hv : snapshot_precheck_lv_set w ss with
      | error e => simp [hv] at h
      | ok p =>
        obtain ⟨rc, m, sdo⟩ := p
        simp only [hv, Except.ok.injEq, Prod.mk.injEq] at h
        obtain ⟨h1, h2⟩ := h
        subst h1
        rfl
  · intro w args ss res w' hvo h
    unfold remove_cmd at h
    rw [if_pos hvo] at h
    simp only [Except.ok.injEq, Prod.mk.injEq] at h
    obtain ⟨h1, h2⟩ := h
    subst h1
    rfl
  · intro w args ss res w' hvo h
    unfold revert_cmd at h
    rw [if_pos hvo] at h
    simp only [Except.ok.injEq, Prod.mk.injEq] at h
    obtain ⟨h1, h2⟩ := h
    subst h1
    rfl
  · intro w args ss res w' hvo h
    unfold extend_cmd at h
    rw [if_pos hvo] at h
    cases hv : extend_verify_snapshot_set w ss with
    | error e => simp [hv] at h
    | ok p =>
      obtain ⟨rc, m⟩ := p
      simp only [hv, Except.ok.injEq, Prod.mk.injEq] at h
      obtain ⟨h1, h2⟩ := h
      subst h1
      rfl
  · intro w args ss res w' hvo h
    unfold mount_cmd at h
    rw [hvo] at h
    cases hms : mount_snapshot_set w ss true args.snapshot_lvm_mountpoint_create
        args.ansible_check_mode with
    | error e => simp [hms] at h
    | ok q =>
      obtain ⟨⟨rc, m, chg⟩, w2⟩ := q
      simp only [hms, Except.ok.injEq, Prod.mk.injEq] at h
      obtain ⟨h1, h2⟩ := h
      subst h1
      have hloop : ((rc, m, chg) : Nat × String × Bool).2.2 = false := by
        unfold mount_snapshot_set at hms
        exact mount_set_loop_verify ss.volumes w false (rc, m, chg) w2 hms
      simpa using hloop
  · intro w args ss res w' hvo h
    unfold umount_cmd at h
    rw [hvo] at h
    cases hms : umount_snapshot_set w ss true args.ansible_check_mode with
    | error e => simp [hms] at h
    | ok q =>
      obtain ⟨⟨rc, m, chg⟩, w2⟩ := q
      simp only [hms, Except.ok.injEq, Prod.mk.injEq] at h
      obtain ⟨h1, h2⟩ := h
      subst h1
      have hloop : ((rc, m, chg) : Nat × String × Bool).2.2 = false := by
        unfold umount_snapshot_set at hms
        exact umount_set_loop_verify ss.volumes w false (rc, m, chg) w2 hms
      simpa using hloop

/-- Witness for C1's amended theorem: an actual removal on `Wvanished`
flags `changed = true` with the event log grown by the remove command,
and a verify-only remove command reports `changed = false`. -/
theorem changed_flag_contract_amended_witness :
    (remove_snapshot_set Wvanished SSrm false = .ok ((SNAPSHOT_OK, "", true), WrmAfter) ∧
     argsVerify.snapshot_lvm_verify_only = true ∧
     remove_cmd Wbase argsVerify SSbase
       = .ok ({ return_code := SNAPSHOT_OK, errors := "", changed := false }, Wbase)) ∧
    ((((SNAPSHOT_OK, "", true) : Nat × String × Bool).2.2 = true
        ↔ eventCount Wvanished < eventCount WrmAfter) ∧
     ({ return_code := SNAPSHOT_OK, errors := "", changed := false } : CmdResult).changed
       = false) :=
  ⟨⟨rfl, rfl, rfl⟩,
   ⟨changed_flag_contract_amended.2.1 Wvanished SSrm (SNAPSHOT_OK, "", true) WrmAfter rfl,
    changed_flag_contract_amended.2.2.2.2.2.2.2.1 Wbase argsVerify SSbase
      { return_code := SNAPSHOT_OK, errors := "", changed := false } Wbase rfl rfl⟩⟩

end SnapshotLSR
